import Mathlib

/-! libiccom: channel lifecycle (Init / Send / Final) over a shallow embedding

The embedding follows `src/src/iccom_library.c`, `src/src/iccom_library.h` and
`src/public/iccom.h`.

* Pointers are addresses (`Ptr`), `NULL` is address `0`.
* `g_lib_channel_global[i].channel_info` is `LibState.g_lib_channel_global i`;
  only the indices below `ICCOM_CHANNEL_MAX` are ever accessed by the code.
* The blocks obtained from `malloc` live in `LibState.heap`; a freed or never
  allocated address maps to `none`.  Reading a field through such an address is
  undefined behaviour, which the functions report by returning `none`.
* Every call of the C library (open, close, malloc, free, pthread_*, write,
  ioctl) is recorded, in program order, in the list of `Event`s of the call; the
  outcome of a call that depends on the environment is an argument (`InitEnv`,
  `SendEnv`, `FinalEnv`).
* `uint32_t` values are natural numbers reduced modulo `2 ^ 32`.
-/

namespace Iccom

/-! ## Constants of `iccom.h` and `iccom_library.h` -/

abbrev ICCOM_OK : Int := 0
abbrev ICCOM_NG : Int := -1
abbrev ICCOM_ERR_PARAM : Int := -2
abbrev ICCOM_ERR_BUF_FULL : Int := -3
abbrev ICCOM_ERR_TO_ACK : Int := -4
abbrev ICCOM_ERR_BUSY : Int := -5
abbrev ICCOM_ERR_TO_INIT : Int := -6
abbrev ICCOM_ERR_TO_SEND : Int := -7
abbrev ICCOM_ERR_UNSUPPORT : Int := -8
abbrev ICCOM_ERR_SIZE : Int := -9

/-- Value of the enumerator `ICCOM_CHANNEL_MAX`. -/
abbrev ICCOM_CHANNEL_MAX : Nat := 8
/-- Communication maximum buffer size, `2048U`. -/
abbrev ICCOM_BUF_MAX_SIZE : Nat := 2048
/-- Request command of the ioctl that ends the data receive. -/
abbrev ICCOM_IOC_CANCEL_RECEIVE : Nat := 1
/-- Number of characters of `ICCOM_DEVFILENAME`, the string "/dev/iccom". -/
abbrev ICCOM_DEVFILENAME_LEN : Nat := 10

/-! ## Error numbers of `<errno.h>` (Linux values) -/

abbrev ENOENT : Int := 2
abbrev ENXIO : Int := 6
abbrev EBUSY : Int := 16
abbrev ENODEV : Int := 19
abbrev ENOSPC : Int := 28
abbrev EDEADLK : Int := 35
abbrev ETIMEDOUT : Int := 110
abbrev ECANCELED : Int := 125

/-! ## Data model -/

/-- An address; `NULL` is `0`. -/
abbrev Ptr := Nat

abbrev NULL : Ptr := 0

/-- The cast `(uint32_t)x` of a C integer. -/
def to_uint32 (x : Int) : Nat := (x % 4294967296).toNat

/-- The operator `++` on a `uint32_t`. -/
def uint32_inc (x : Nat) : Nat := (x + 1) % 4294967296

/-- The operator `--` on a `uint32_t`. -/
def uint32_dec (x : Nat) : Nat := (x + 4294967295) % 4294967296

/-- Channel handle information, `struct iccom_channel_info_t`. -/
structure iccom_channel_info_t where
  channel_no : Int
  send_req_cnt : Nat
  recv_buf : Ptr
  recv_cb : Ptr
  fd : Int
  recv_thread_id : Nat
  deriving DecidableEq, Repr

/-- Parameter of `Iccom_lib_Init`, `Iccom_init_param`. -/
structure Iccom_init_param where
  channel_no : Int
  recv_buf : Ptr
  recv_cb : Ptr
  deriving DecidableEq, Repr

/-- Parameter of `Iccom_lib_Send`, `Iccom_send_param`. -/
structure Iccom_send_param where
  channel_handle : Ptr
  send_size : Nat
  send_buf : Ptr
  deriving DecidableEq, Repr

/-- The global data of the library together with the blocks it allocated. -/
structure LibState where
  g_lib_channel_global : Nat → Ptr
  heap : Ptr → Option iccom_channel_info_t

/-- The library calls a function of the source issues, in program order.  The
channel mutex `g_lib_channel_global[ch].mutex_channel_info` is named by `ch`. -/
inductive Event where
  | open_dev (channel_no : Nat) (ret : Int)
  | malloc (ret : Ptr)
  | pthread_mutex_init (ch : Nat)
  | pthread_create (arg : Ptr) (ret : Int)
  | lock_global
  | unlock_global
  | lock_channel (ch : Nat)
  | unlock_channel (ch : Nat)
  | pthread_mutex_destroy (ch : Nat)
  | close (fd : Int)
  | free (p : Ptr)
  | write (fd : Int) (buf : Ptr) (size : Nat) (ret : Int)
  | ioctl (fd : Int) (request : Nat) (ret : Int)
  | pthread_join (thread_id : Nat)
  | store_send_req_cnt (p : Ptr) (value : Nat)
  deriving DecidableEq, Repr

/-- What the environment answers to the calls of one `Iccom_lib_Init`. -/
structure InitEnv where
  open_ret : Int
  open_errno : Int
  malloc_ret : Ptr
  pthread_create_ret : Int
  thread_id : Nat
  deriving DecidableEq, Repr

/-- What the environment answers to the `write` of one `Iccom_lib_Send`. -/
structure SendEnv where
  write_ret : Int
  write_errno : Int
  deriving DecidableEq, Repr

/-- What the environment answers to the `ioctl` of one `Iccom_lib_Final`. -/
structure FinalEnv where
  ioctl_ret : Int
  deriving DecidableEq, Repr

/-- Outcome of `Iccom_lib_Init`: return code, state on return, the value stored
through `pChannelHandle` (`none` when nothing was stored) and the calls made. -/
structure InitResult where
  retcode : Int
  state : LibState
  pChannelHandle : Option Ptr
  events : List Event

/-- Outcome of `Iccom_lib_Send` and of `Iccom_lib_Final`. -/
structure CallResult where
  retcode : Int
  state : LibState
  events : List Event

/-- Outcome of `iccom_lib_check_handle`: return code, the value stored through
`channel_no` (`none` when nothing was stored) and the calls made. -/
structure CheckResult where
  retcode : Int
  channel_no : Option Nat
  events : List Event
  deriving DecidableEq, Repr

/-! ## `Iccom_lib_Init` -/

/-- Return value of `snprintf(devname, ICCOM_DEVFILE_LEN, "%s%d",
ICCOM_DEVFILENAME, l_channel_no)`: the number of characters of the name. -/
def snprintf_ret (l_channel_no : Nat) : Int :=
  ((ICCOM_DEVFILENAME_LEN + (Nat.toDigits 10 l_channel_no).length : Nat) : Int)

/-- The `switch (errno)` after a failed `open` (lines 130-145). -/
def open_errno_retcode (errno : Int) : Int :=
  if errno = EBUSY then ICCOM_ERR_BUSY
  else if errno = EDEADLK then ICCOM_ERR_TO_INIT
  else if errno = ENOENT ∨ errno = ENODEV ∨ errno = ENXIO then ICCOM_ERR_UNSUPPORT
  else ICCOM_NG

/-- The "abnormal correspondence" block of `Iccom_lib_Init` (lines 220-239),
run with the values the locals `l_fd`, `mutexflg` and `l_channel_info` have
when `retcode` is not `ICCOM_OK`. -/
def Iccom_lib_Init_abnormal (s : LibState) (retcode : Int) (l_fd : Int)
    (mutexflg : Bool) (l_channel_info : Ptr) (l_channel_no : Nat)
    (events : List Event) : InitResult :=
  let ev_close := if l_fd ≥ 0 then [Event.close l_fd] else []
  let ev_destroy :=
    if mutexflg then [Event.pthread_mutex_destroy l_channel_no] else []
  if l_channel_info ≠ NULL then
    { retcode := retcode
      state := { s with heap := Function.update s.heap l_channel_info none }
      pChannelHandle := none
      events := events ++ ev_close ++ ev_destroy ++ [Event.free l_channel_info] }
  else
    { retcode := retcode
      state := s
      pChannelHandle := none
      events := events ++ ev_close ++ ev_destroy }

/-- The function `Iccom_lib_Init` (lines 68-242). -/
def Iccom_lib_Init (s : LibState) (pIccomInit : Option Iccom_init_param)
    (env : InitEnv) : InitResult :=
  match pIccomInit with
  | none => Iccom_lib_Init_abnormal s ICCOM_ERR_PARAM (-1) false NULL 0 []
  | some ip =>
    let l_channel_no := to_uint32 ip.channel_no
    if ip.recv_buf = NULL ∨ ip.recv_cb = NULL ∨
        l_channel_no ≥ ICCOM_CHANNEL_MAX then
      Iccom_lib_Init_abnormal s ICCOM_ERR_PARAM (-1) false NULL l_channel_no []
    else if snprintf_ret l_channel_no < 0 then
      Iccom_lib_Init_abnormal s ICCOM_NG (-1) false NULL l_channel_no []
    else
      let l_fd := env.open_ret
      let ev_open := [Event.open_dev l_channel_no l_fd]
      if l_fd < 0 then
        Iccom_lib_Init_abnormal s (open_errno_retcode env.open_errno) l_fd
          false NULL l_channel_no ev_open
      else
        let l_channel_info := env.malloc_ret
        let ev_malloc := ev_open ++ [Event.malloc l_channel_info]
        if l_channel_info = NULL then
          Iccom_lib_Init_abnormal s ICCOM_NG l_fd false NULL l_channel_no
            ev_malloc
        else
          let info : iccom_channel_info_t :=
            { channel_no := ip.channel_no
              send_req_cnt := 0
              recv_buf := ip.recv_buf
              recv_cb := ip.recv_cb
              fd := l_fd
              recv_thread_id := 0 }
          let ev_create := ev_malloc ++
            [Event.pthread_mutex_init l_channel_no,
             Event.pthread_create l_channel_info env.pthread_create_ret]
          if env.pthread_create_ret ≠ 0 then
            Iccom_lib_Init_abnormal
              { s with heap := Function.update s.heap l_channel_info (some info) }
              ICCOM_NG l_fd true l_channel_info l_channel_no ev_create
          else
            let started := { info with recv_thread_id := env.thread_id }
            { retcode := ICCOM_OK
              state :=
                { g_lib_channel_global :=
                    Function.update s.g_lib_channel_global l_channel_no
                      l_channel_info
                  heap := Function.update s.heap l_channel_info (some started) }
              pChannelHandle := some l_channel_info
              events := ev_create ++ [Event.lock_global, Event.unlock_global] }

/-! ## `iccom_lib_check_handle` -/

/-- The search loop of `iccom_lib_check_handle` (lines 658-665): `n` is the
number of indices left below `ICCOM_CHANNEL_MAX`, the result is the value of
`ch_loop` when the loop is left. -/
def check_handle_loop (g : Nat → Ptr) (channel_info : Ptr) : Nat → Nat → Nat
  | 0, ch_loop => ch_loop
  | n + 1, ch_loop =>
    if g ch_loop = channel_info then ch_loop
    else check_handle_loop g channel_info n (ch_loop + 1)

/-- The function `iccom_lib_check_handle` (lines 637-699). -/
def iccom_lib_check_handle (s : LibState) (channel_info : Ptr) :
    Option CheckResult :=
  if channel_info = NULL then
    some { retcode := ICCOM_ERR_PARAM, channel_no := none, events := [] }
  else
    let ch_loop :=
      check_handle_loop s.g_lib_channel_global channel_info ICCOM_CHANNEL_MAX 0
    let ev := [Event.lock_global, Event.unlock_global]
    if ch_loop ≥ ICCOM_CHANNEL_MAX then
      some { retcode := ICCOM_ERR_PARAM, channel_no := none, events := ev }
    else
      match s.heap channel_info with
      | none => none
      | some info =>
        if to_uint32 info.channel_no ≠ ch_loop then
          some { retcode := ICCOM_ERR_PARAM, channel_no := none, events := ev }
        else
          some { retcode := ICCOM_OK
                 channel_no := some (to_uint32 info.channel_no)
                 events := ev }

/-! ## `Iccom_lib_Send` -/

/-- The return code chosen after the `write` (lines 357-389) from the requested
size, the value `write` returned and `errno`. -/
def send_write_retcode (send_size : Nat) (write_count : Int) (errno : Int) :
    Int :=
  if write_count ≠ (send_size : Int) then
    if write_count < 0 then
      if errno = ENOSPC then ICCOM_ERR_BUF_FULL
      else if errno = ETIMEDOUT then ICCOM_ERR_TO_ACK
      else if errno = EDEADLK then ICCOM_ERR_TO_SEND
      else ICCOM_NG
    else ICCOM_ERR_SIZE
  else ICCOM_OK

/-- The part of `Iccom_lib_Send` that runs once the handle has been checked
(lines 314-413); `events` are the calls made before. -/
def Iccom_lib_Send_channel (s : LibState) (sp : Iccom_send_param)
    (l_channel_no : Nat) (env : SendEnv) (events : List Event) :
    Option CallResult :=
  let l_channel_info := sp.channel_handle
  if s.g_lib_channel_global l_channel_no = NULL then
    some { retcode := ICCOM_ERR_PARAM
           state := s
           events := events ++ [Event.lock_channel l_channel_no,
                                Event.unlock_channel l_channel_no] }
  else
    match s.heap l_channel_info with
    | none => none
    | some info =>
      let cnt_up := uint32_inc info.send_req_cnt
      let cnt_down := uint32_dec cnt_up
      some { retcode :=
               send_write_retcode sp.send_size env.write_ret env.write_errno
             state :=
               { g_lib_channel_global := s.g_lib_channel_global
                 heap :=
                   Function.update s.heap l_channel_info
                     (some { info with send_req_cnt := cnt_down }) }
             events := events ++
               [Event.lock_channel l_channel_no,
                Event.store_send_req_cnt l_channel_info cnt_up,
                Event.unlock_channel l_channel_no,
                Event.write info.fd sp.send_buf sp.send_size env.write_ret,
                Event.lock_channel l_channel_no,
                Event.store_send_req_cnt l_channel_info cnt_down,
                Event.unlock_channel l_channel_no] }

/-- The function `Iccom_lib_Send` (lines 264-414). -/
def Iccom_lib_Send (s : LibState) (pIccomSend : Option Iccom_send_param)
    (env : SendEnv) : Option CallResult :=
  match pIccomSend with
  | none => some { retcode := ICCOM_ERR_PARAM, state := s, events := [] }
  | some sp =>
    if sp.send_size > ICCOM_BUF_MAX_SIZE ∨ sp.send_buf = NULL then
      some { retcode := ICCOM_ERR_PARAM, state := s, events := [] }
    else
      match iccom_lib_check_handle s sp.channel_handle with
      | none => none
      | some r =>
        if r.retcode ≠ ICCOM_OK then
          some { retcode := r.retcode, state := s, events := r.events }
        else
          match r.channel_no with
          | none => none
          | some l_channel_no =>
            Iccom_lib_Send_channel s sp l_channel_no env r.events

/-! ## `Iccom_lib_Final` -/

/-- The part of `Iccom_lib_Final` that runs once the handle has been checked
(lines 459-557); `events` are the calls made before. -/
def Iccom_lib_Final_channel (s : LibState) (l_channel_info : Ptr)
    (l_channel_no : Nat) (env : FinalEnv) (events : List Event) :
    Option CallResult :=
  let ev_lock := events ++ [Event.lock_channel l_channel_no]
  if s.g_lib_channel_global l_channel_no = NULL then
    some { retcode := ICCOM_ERR_PARAM
           state := s
           events := ev_lock ++ [Event.unlock_channel l_channel_no] }
  else
    match s.heap l_channel_info with
    | none => none
    | some info =>
      if info.send_req_cnt ≠ 0 then
        some { retcode := ICCOM_ERR_PARAM
               state := s
               events := ev_lock ++ [Event.unlock_channel l_channel_no] }
      else
        let ev_ioctl := ev_lock ++
          [Event.ioctl info.fd ICCOM_IOC_CANCEL_RECEIVE env.ioctl_ret]
        if env.ioctl_ret ≠ 0 then
          some { retcode := ICCOM_NG
                 state := s
                 events := ev_ioctl ++ [Event.unlock_channel l_channel_no] }
        else
          some { retcode := ICCOM_OK
                 state :=
                   { g_lib_channel_global :=
                       Function.update s.g_lib_channel_global l_channel_no NULL
                     heap := Function.update s.heap l_channel_info none }
                 events := ev_ioctl ++
                   [Event.pthread_join info.recv_thread_id,
                    Event.close info.fd,
                    Event.lock_global,
                    Event.free l_channel_info,
                    Event.unlock_global,
                    Event.unlock_channel l_channel_no,
                    Event.pthread_mutex_destroy l_channel_no] }

/-- The function `Iccom_lib_Final` (lines 436-557). -/
def Iccom_lib_Final (s : LibState) (ChannelHandle : Ptr) (env : FinalEnv) :
    Option CallResult :=
  match iccom_lib_check_handle s ChannelHandle with
  | none => none
  | some r =>
    if r.retcode ≠ ICCOM_OK then
      some { retcode := r.retcode, state := s, events := r.events }
    else
      match r.channel_no with
      | none => none
      | some l_channel_no =>
        Iccom_lib_Final_channel s ChannelHandle l_channel_no env r.events

/-! ## Predicates on the outcome of a call -/


/-- The receive task was started by the call: `pthread_create` was called and
returned `0`. -/
def recv_thread_started (r : InitResult) : Prop :=
  ∃ p, Event.pthread_create p 0 ∈ r.events

/-- The call performed a transport open. -/
def open_performed (events : List Event) : Prop :=
  ∃ n ret, Event.open_dev n ret ∈ events

/-- The event is a transport write. -/
def is_write : Event → Bool
  | Event.write _ _ _ _ => true
  | _ => false

/-- The event is a transport write or a store to a send request counter. -/
def is_write_or_store : Event → Bool
  | Event.write _ _ _ _ => true
  | Event.store_send_req_cnt _ _ => true
  | _ => false

/-- The event is a transport operation: open, close, write or ioctl. -/
def is_transport : Event → Bool
  | Event.open_dev _ _ => true
  | Event.close _ => true
  | Event.write _ _ _ _ => true
  | Event.ioctl _ _ _ => true
  | _ => false

/-- Every block a slot of the registry points to is allocated. -/
def registry_wf (s : LibState) : Prop :=
  ∀ i, i < ICCOM_CHANNEL_MAX → s.g_lib_channel_global i ≠ NULL →
    s.heap (s.g_lib_channel_global i) ≠ none

/-- Every send request counter in the heap is a `uint32_t` value. -/
def counters_wf (s : LibState) : Prop :=
  ∀ p info, s.heap p = some info → info.send_req_cnt < 4294967296

/-- The contract of `malloc` seen from the registry: the block it returns is
none of the blocks the registry holds. -/
def malloc_fresh (s : LibState) (p : Ptr) : Prop :=
  ∀ i, i < ICCOM_CHANNEL_MAX → s.g_lib_channel_global i ≠ NULL →
    s.g_lib_channel_global i ≠ p

/-- The block `Iccom_lib_Init` builds for its channel when every step
succeeds. -/
def init_info (ip : Iccom_init_param) (env : InitEnv) : iccom_channel_info_t :=
  { channel_no := ip.channel_no
    send_req_cnt := 0
    recv_buf := ip.recv_buf
    recv_cb := ip.recv_cb
    fd := env.open_ret
    recv_thread_id := env.thread_id }

/-! ## States used in the examples -/

/-- The registry at program start: `g_lib_channel_global` is zero-initialised
and nothing is allocated. -/
def initial_state : LibState :=
  { g_lib_channel_global := fun _ => NULL, heap := fun _ => none }

/-- An environment in which every step of `Iccom_lib_Init` succeeds: `open`
returns descriptor 3, `malloc` the block at 1000, `pthread_create` 0. -/
def env_init_ok : InitEnv :=
  { open_ret := 3, open_errno := 0, malloc_ret := 1000,
    pthread_create_ret := 0, thread_id := 7 }

/-- An environment in which the open (descriptor 3) and the allocation (block
1000) succeed and `pthread_create` fails with 11. -/
def env_create_fails : InitEnv :=
  { open_ret := 3, open_errno := 0, malloc_ret := 1000,
    pthread_create_ret := 11, thread_id := 0 }

/-- Parameter of an Init of channel 2 with buffer 100 and callback 200. -/
def param_ch2 : Iccom_init_param :=
  { channel_no := ((2 : Nat) : Int), recv_buf := 100, recv_cb := 200 }

/-- The state after a successful Init of channel 2 at program start: slot 2
holds the block at 1000, which records descriptor 3 and thread 7. -/
def state_ch2_open : LibState :=
  (Iccom_lib_Init initial_state (some param_ch2) env_init_ok).state

/-- The state `state_ch2_open` while one Send on channel 2 is in flight. -/
def state_ch2_sending : LibState :=
  { g_lib_channel_global := state_ch2_open.g_lib_channel_global
    heap := Function.update state_ch2_open.heap 1000
      (some { channel_no := 2, send_req_cnt := 1, recv_buf := 100,
              recv_cb := 200, fd := 3, recv_thread_id := 7 }) }

/-! ## `iccom_lib_recv_thread` -/

/-- What one blocking `read` of the receive thread answers: the value returned
and, for a negative one, `errno`. -/
structure ReadResult where
  read_size : Int
  errno : Int
  deriving DecidableEq, Repr

/-- The calls the receive thread makes, in program order: `recv_cb` is the call
of the callback function with its three arguments. -/
inductive RecvEvent where
  | read (fd : Int) (buf : Ptr) (count : Nat) (ret : Int)
  | recv_cb (cb : Ptr) (channel_no : Int) (recv_size : Nat) (recv_buf : Ptr)
  | pthread_exit
  deriving DecidableEq, Repr

/-- The function `iccom_lib_recv_thread` (lines 573-620) for the channel block
`info`, run on the answers of its successive reads.  The thread has left its
loop when the calls end with `pthread_exit`; when the answers are used up
before, it is in its next read. -/
def iccom_lib_recv_thread (info : iccom_channel_info_t) :
    List ReadResult → List RecvEvent
  | [] => []
  | r :: rest =>
    let ev_read :=
      RecvEvent.read info.fd info.recv_buf ICCOM_BUF_MAX_SIZE r.read_size
    if r.read_size ≥ 0 then
      ev_read ::
        RecvEvent.recv_cb info.recv_cb info.channel_no (to_uint32 r.read_size)
          info.recv_buf ::
        iccom_lib_recv_thread info rest
    else if r.errno = ECANCELED then [ev_read, RecvEvent.pthread_exit]
    else ev_read :: iccom_lib_recv_thread info rest

/-- The read failed with the cancellation code. -/
def is_cancel (r : ReadResult) : Bool :=
  decide (r.read_size < 0 ∧ r.errno = ECANCELED)

/-- The call is a call of the callback function. -/
def is_recv_cb : RecvEvent → Bool
  | RecvEvent.recv_cb _ _ _ _ => true
  | _ => false

/-- The call is a `read`. -/
def is_read : RecvEvent → Bool
  | RecvEvent.read _ _ _ _ => true
  | _ => false

/-- The reads of the sequence that come before the first cancelled one. -/
def before_cancel (rs : List ReadResult) : List ReadResult :=
  rs.takeWhile (fun r => !is_cancel r)

/-- The block of channel 2 in `state_ch2_open`. -/
def info_ch2 : iccom_channel_info_t :=
  { channel_no := 2, send_req_cnt := 0, recv_buf := 100, recv_cb := 200,
    fd := 3, recv_thread_id := 7 }

/-- Answers of five reads: 3 bytes, a failure with error 4, 0 bytes, a failure
with ECANCELED, 5 bytes. -/
def reads_example : List ReadResult :=
  [⟨3, 0⟩, ⟨-1, 4⟩, ⟨0, 0⟩, ⟨-1, 125⟩, ⟨5, 0⟩]

/-! ## Reachable states -/

/-- The contract of `malloc`: the result is null or a block that is not
allocated at the time of the call. -/
def malloc_contract (s : LibState) (p : Ptr) : Prop :=
  p = NULL ∨ s.heap p = none

/-- The states the library can be in after any sequence of calls of
`Iccom_lib_Init`, `Iccom_lib_Send` and `Iccom_lib_Final`, whatever their
arguments and whatever the environment answers within the contract of
`malloc`. -/
inductive Reachable : LibState → Prop where
  | start : Reachable initial_state
  | init (s : LibState) (pIccomInit : Option Iccom_init_param) (env : InitEnv) :
      Reachable s → malloc_contract s env.malloc_ret →
      Reachable (Iccom_lib_Init s pIccomInit env).state
  | send (s : LibState) (pIccomSend : Option Iccom_send_param) (env : SendEnv)
      (r : CallResult) :
      Reachable s → Iccom_lib_Send s pIccomSend env = some r →
      Reachable r.state
  | final (s : LibState) (h : Ptr) (env : FinalEnv) (r : CallResult) :
      Reachable s → Iccom_lib_Final s h env = some r → Reachable r.state

/-- Every non-empty slot `i` points to an allocated block whose recorded
channel number is `i`. -/
def registry_inv (s : LibState) : Prop :=
  ∀ i, i < ICCOM_CHANNEL_MAX → s.g_lib_channel_global i ≠ NULL →
    ∃ info, s.heap (s.g_lib_channel_global i) = some info ∧
      to_uint32 info.channel_no = i

/-- The event acquires a resource of `Iccom_lib_Init`: the open, the
allocation or the initialisation of the channel mutex. -/
def is_acquire : Event → Bool
  | Event.open_dev _ _ => true
  | Event.malloc _ => true
  | Event.pthread_mutex_init _ => true
  | _ => false

/-- The event releases a resource of `Iccom_lib_Init`: the close, the free or
the destruction of the channel mutex. -/
def is_release : Event → Bool
  | Event.close _ => true
  | Event.free _ => true
  | Event.pthread_mutex_destroy _ => true
  | _ => false

/-- The call started the receive thread and `pthread_create` failed. -/
def recv_thread_start_failed (r : InitResult) : Prop :=
  ∃ p ret, ret ≠ 0 ∧ Event.pthread_create p ret ∈ r.events

/-- An environment of a second successful `Iccom_lib_Init`: `open` returns
descriptor 4, `malloc` the block at 2000, `pthread_create` 0. -/
def env_init_again : InitEnv :=
  { open_ret := 4, open_errno := 0, malloc_ret := 2000,
    pthread_create_ret := 0, thread_id := 8 }

/-- The state after a second successful Init of channel 2 made while channel 2
is open: slot 2 holds the block at 2000 and the block at 1000 is still
allocated. -/
def state_ch2_replaced : LibState :=
  (Iccom_lib_Init state_ch2_open (some param_ch2) env_init_again).state

/-! ## Mutexes held during a call -/

/-- The mutexes a call holds: whether it holds `g_lib_mutex_global`, and the
channels whose `mutex_channel_info` it holds. -/
structure Locks where
  global : Bool
  channels : List Nat
  deriving DecidableEq, Repr

/-- No mutex is held. -/
def no_locks : Locks := { global := false, channels := [] }

/-- The mutexes held after an event, or `none` when the event breaks the lock
discipline: it locks a mutex the call already holds, unlocks a mutex the call
does not hold, or destroys a channel mutex the call holds. -/
def lock_step (l : Locks) : Event → Option Locks
  | Event.lock_global =>
    if l.global then none else some { l with global := true }
  | Event.unlock_global =>
    if l.global then some { l with global := false } else none
  | Event.lock_channel c =>
    if c ∈ l.channels then none
    else some { l with channels := c :: l.channels }
  | Event.unlock_channel c =>
    if c ∈ l.channels then some { l with channels := l.channels.erase c }
    else none
  | Event.pthread_mutex_destroy c =>
    if c ∈ l.channels then none else some l
  | _ => some l

/-- The mutexes held after a list of events, `none` when one of them breaks
the lock discipline. -/
def lock_run : Locks → List Event → Option Locks
  | l, [] => some l
  | l, e :: es =>
    match lock_step l e with
    | none => none
    | some l' => lock_run l' es

/-- Lock balance of the calls of one function call: no event breaks the lock
discipline and no mutex is held at the end. -/
def lock_balanced (events : List Event) : Prop :=
  lock_run no_locks events = some no_locks

/-- The global mutex and a channel mutex are both held. -/
def both_held (l : Locks) : Bool :=
  l.global && !l.channels.isEmpty

/-- At some point of the events the global mutex and a channel mutex are both
held. -/
def holds_both : Locks → List Event → Bool
  | _, [] => false
  | l, e :: es =>
    match lock_step l e with
    | none => false
    | some l' => both_held l' || holds_both l' es

/-- Some channel mutex is locked while the global mutex is held. -/
def channel_locked_under_global : Locks → List Event → Bool
  | _, [] => false
  | l, e :: es =>
    match lock_step l e with
    | none => false
    | some l' =>
      (match e with
        | Event.lock_channel _ => l.global
        | _ => false) || channel_locked_under_global l' es

/-- The global mutex is locked while some channel mutex is held. -/
def global_locked_under_channel : Locks → List Event → Bool
  | _, [] => false
  | l, e :: es =>
    match lock_step l e with
    | none => false
    | some l' =>
      (match e with
        | Event.lock_global => !l.channels.isEmpty
        | _ => false) || global_locked_under_channel l' es

/-- The event locks or unlocks a mutex. -/
def is_lock_event : Event → Bool
  | Event.lock_global => true
  | Event.unlock_global => true
  | Event.lock_channel _ => true
  | Event.unlock_channel _ => true
  | _ => false

/-! ## Auxiliary facts -/

theorem to_uint32_natCast (c : Nat) (hc : c < 4294967296) :
    to_uint32 (c : Int) = c := by
  unfold to_uint32
  omega

theorem snprintf_ret_nonneg (n : Nat) : ¬ snprintf_ret n < 0 := by
  unfold snprintf_ret
  omega

theorem uint32_dec_inc (x : Nat) (hx : x < 4294967296) :
    uint32_dec (uint32_inc x) = x := by
  unfold uint32_dec uint32_inc
  omega

/-- The loop leaves `ch_loop` at the first index holding the handle. -/
theorem check_handle_loop_found (g : Nat → Ptr) (p : Ptr) :
    ∀ (n k j : Nat), k ≤ j → j < k + n → g j = p →
      (∀ i, k ≤ i → i < j → g i ≠ p) → check_handle_loop g p n k = j := by
  intro n
  induction n with
  | zero => intro k j h1 h2; omega
  | succ n ih =>
    intro k j h1 h2 hj hlt
    unfold check_handle_loop
    by_cases hk : g k = p
    · rw [if_pos hk]
      by_contra hne
      exact hlt k (le_refl k) (by omega) hk
    · rw [if_neg hk]
      have hkj : k ≠ j := fun h => hk (h ▸ hj)
      exact ih (k + 1) j (by omega) (by omega) hj
        (fun i hi1 hi2 => hlt i (by omega) hi2)

/-- The loop runs to the end when no index holds the handle. -/
theorem check_handle_loop_not_found (g : Nat → Ptr) (p : Ptr) :
    ∀ (n k : Nat), (∀ i, k ≤ i → i < k + n → g i ≠ p) →
      check_handle_loop g p n k = k + n := by
  intro n
  induction n with
  | zero => intro k _; rfl
  | succ n ih =>
    intro k h
    unfold check_handle_loop
    rw [if_neg (h k (le_refl k) (by omega))]
    rw [ih (k + 1) (fun i hi1 hi2 => h i (by omega) (by omega))]
    omega

/-- A handle that is null or stored in no slot is rejected by
`iccom_lib_check_handle` without any access to the heap. -/
theorem check_handle_unknown (s : LibState) (h : Ptr)
    (hno : h = NULL ∨ ∀ i, i < ICCOM_CHANNEL_MAX → s.g_lib_channel_global i ≠ h) :
    iccom_lib_check_handle s h =
      some { retcode := ICCOM_ERR_PARAM
             channel_no := none
             events := if h = NULL then []
                       else [Event.lock_global, Event.unlock_global] } := by
  unfold iccom_lib_check_handle
  by_cases h0 : h = NULL
  · simp [h0]
  · have hall : ∀ i, i < ICCOM_CHANNEL_MAX → s.g_lib_channel_global i ≠ h := by
      rcases hno with hn | hn
      · exact absurd hn h0
      · exact hn
    have hl := check_handle_loop_not_found s.g_lib_channel_global h
      ICCOM_CHANNEL_MAX 0 (fun i _ hi => hall i (by omega))
    simp [h0, hl]

/-- A handle stored in slot `c`, in no slot below `c`, and whose block records
channel `c`, resolves to `c`. -/
theorem check_handle_live (s : LibState) (h : Ptr) (c : Nat)
    (info : iccom_channel_info_t) (h0 : h ≠ NULL) (hc : c < ICCOM_CHANNEL_MAX)
    (hslot : s.g_lib_channel_global c = h)
    (hlow : ∀ i, i < c → s.g_lib_channel_global i ≠ h)
    (hheap : s.heap h = some info) (hno : to_uint32 info.channel_no = c) :
    iccom_lib_check_handle s h =
      some { retcode := ICCOM_OK
             channel_no := some c
             events := [Event.lock_global, Event.unlock_global] } := by
  unfold iccom_lib_check_handle
  have hl := check_handle_loop_found s.g_lib_channel_global h
    ICCOM_CHANNEL_MAX 0 c (Nat.zero_le c) (by omega) hslot
    (fun i _ hi => hlow i hi)
  have hc8 : ¬ (8 ≤ c) := by simpa using hc
  simp [h0, hl, hheap, hno, hc8]

/-- The outcome of `Iccom_lib_Init` when the parameters are valid and the
open, the allocation and the thread creation succeed. -/
theorem Iccom_lib_Init_success (s : LibState) (ip : Iccom_init_param)
    (env : InitEnv) (hbuf : ip.recv_buf ≠ NULL) (hcb : ip.recv_cb ≠ NULL)
    (hch : to_uint32 ip.channel_no < ICCOM_CHANNEL_MAX)
    (hopen : 0 ≤ env.open_ret) (hmalloc : env.malloc_ret ≠ NULL)
    (hcreate : env.pthread_create_ret = 0) :
    Iccom_lib_Init s (some ip) env =
      { retcode := ICCOM_OK
        state :=
          { g_lib_channel_global :=
              Function.update s.g_lib_channel_global (to_uint32 ip.channel_no)
                env.malloc_ret
            heap := Function.update s.heap env.malloc_ret
              (some (init_info ip env)) }
        pChannelHandle := some env.malloc_ret
        events :=
          [Event.open_dev (to_uint32 ip.channel_no) env.open_ret,
           Event.malloc env.malloc_ret,
           Event.pthread_mutex_init (to_uint32 ip.channel_no),
           Event.pthread_create env.malloc_ret 0,
           Event.lock_global, Event.unlock_global] } := by
  have h8 : ¬ (8 ≤ to_uint32 ip.channel_no) := by simpa using hch
  have hfd : ¬ (env.open_ret < 0) := by omega
  simp [Iccom_lib_Init, hbuf, hcb, h8, snprintf_ret_nonneg, hfd, hmalloc,
    hcreate, init_info]

/-- When the receive task was started, every earlier step of the call had
succeeded. -/
theorem recv_thread_started_cond (s : LibState)
    (pIccomInit : Option Iccom_init_param) (env : InitEnv)
    (h : recv_thread_started (Iccom_lib_Init s pIccomInit env)) :
    ∃ ip, pIccomInit = some ip ∧ ip.recv_buf ≠ NULL ∧ ip.recv_cb ≠ NULL ∧
      to_uint32 ip.channel_no < ICCOM_CHANNEL_MAX ∧ 0 ≤ env.open_ret ∧
      env.malloc_ret ≠ NULL ∧ env.pthread_create_ret = 0 := by
  obtain ⟨p, hp⟩ := h
  cases pIccomInit with
  | none => simp [Iccom_lib_Init, Iccom_lib_Init_abnormal] at hp
  | some ip =>
    refine ⟨ip, rfl, ?_⟩
    unfold Iccom_lib_Init at hp
    simp only [] at hp
    split_ifs at hp with h1 h2 h3 h4 h5
    · simp [Iccom_lib_Init_abnormal] at hp
    · simp [Iccom_lib_Init_abnormal] at hp
    · simp [Iccom_lib_Init_abnormal, h3] at hp
    · simp [Iccom_lib_Init_abnormal, h4] at hp
    · simp [Iccom_lib_Init_abnormal, h4] at hp
      exact absurd hp.2.symm h5
    · push_neg at h1
      refine ⟨h1.1, h1.2.1, h1.2.2, by omega, h4, ?_⟩
      simpa using h5

/-- After a successful `Iccom_lib_Init` on channel `c` with a fresh block, the
returned handle resolves to `c`. -/
theorem check_handle_after_init (s : LibState) (c : Nat) (p : Ptr)
    (info : iccom_channel_info_t) (hc : c < ICCOM_CHANNEL_MAX) (hp : p ≠ NULL)
    (hfresh : malloc_fresh s p) (hno : to_uint32 info.channel_no = c) :
    iccom_lib_check_handle
        { g_lib_channel_global := Function.update s.g_lib_channel_global c p
          heap := Function.update s.heap p (some info) } p =
      some { retcode := ICCOM_OK
             channel_no := some c
             events := [Event.lock_global, Event.unlock_global] } := by
  apply check_handle_live _ p c info hp hc
  · simp
  · intro i hi
    have hic : i ≠ c := by omega
    simp only [Function.update_noteq hic]
    by_cases h0 : s.g_lib_channel_global i = NULL
    · rw [h0]; exact fun h => hp h.symm
    · exact hfresh i (by omega) h0
  · simp
  · exact hno

/-- C1: for every channel id c in [0,8) and every registry state whose slot c
is empty, if the transport open, the receive-task start and the cancel-receive
control command all succeed, `Iccom_lib_Init` with channel c, a non-null receive
buffer and a non-null callback returns ICCOM_OK and a handle, and
`Iccom_lib_Final` on that handle, called immediately afterwards, returns
ICCOM_OK and leaves slot c empty, every other slot holding what it held before
the Init. -/
theorem C1_init_then_final (s : LibState) (c : Nat) (recv_buf recv_cb : Ptr)
    (env : InitEnv) (fenv : FinalEnv)
    (hc : c < ICCOM_CHANNEL_MAX)
    (hempty : s.g_lib_channel_global c = NULL)
    (hbuf : recv_buf ≠ NULL) (hcb : recv_cb ≠ NULL)
    (hfresh : malloc_fresh s env.malloc_ret)
    (hopen : 0 ≤ env.open_ret)
    (hstart : recv_thread_started
      (Iccom_lib_Init s (some ⟨(c : Int), recv_buf, recv_cb⟩) env))
    (hioctl : fenv.ioctl_ret = 0) :
    ∃ h f,
      (Iccom_lib_Init s (some ⟨(c : Int), recv_buf, recv_cb⟩) env).retcode
        = ICCOM_OK ∧
      (Iccom_lib_Init s (some ⟨(c : Int), recv_buf, recv_cb⟩) env).pChannelHandle
        = some h ∧
      h ≠ NULL ∧
      Iccom_lib_Final
        (Iccom_lib_Init s (some ⟨(c : Int), recv_buf, recv_cb⟩) env).state h fenv
        = some f ∧
      f.retcode = ICCOM_OK ∧
      f.state.g_lib_channel_global c = NULL ∧
      (∀ i, i ≠ c →
        f.state.g_lib_channel_global i = s.g_lib_channel_global i) ∧
      f.state.g_lib_channel_global = s.g_lib_channel_global := by
  obtain ⟨ip, hip, -, -, -, -, hmalloc, hcreate⟩ :=
    recv_thread_started_cond s _ env hstart
  have hc8 : c < 8 := hc
  have hcu : to_uint32 (c : Int) = c := to_uint32_natCast c (by omega)
  have hinit := Iccom_lib_Init_success s ⟨(c : Int), recv_buf, recv_cb⟩ env
    hbuf hcb (by rw [hcu]; exact hc) hopen hmalloc hcreate
  rw [hinit]
  simp only [hcu]
  have hchk := check_handle_after_init s c env.malloc_ret
    (init_info ⟨(c : Int), recv_buf, recv_cb⟩ env) hc hmalloc hfresh hcu
  refine ⟨env.malloc_ret, ?_⟩
  simp only [Iccom_lib_Final, hchk, Iccom_lib_Final_channel]
  simp [hmalloc, init_info, hioctl]
  exact ⟨fun i hi => Function.update_noteq hi _ _, hempty.symm⟩

theorem C1_init_then_final_witness :
    ∃ h f,
      (Iccom_lib_Init initial_state
        (some ⟨((2 : Nat) : Int), 100, 200⟩) env_init_ok).retcode = ICCOM_OK ∧
      (Iccom_lib_Init initial_state
        (some ⟨((2 : Nat) : Int), 100, 200⟩) env_init_ok).pChannelHandle
        = some h ∧
      h ≠ NULL ∧
      Iccom_lib_Final
        (Iccom_lib_Init initial_state
          (some ⟨((2 : Nat) : Int), 100, 200⟩) env_init_ok).state h ⟨0⟩
        = some f ∧
      f.retcode = ICCOM_OK ∧
      f.state.g_lib_channel_global 2 = NULL ∧
      (∀ i, i ≠ 2 →
        f.state.g_lib_channel_global i
          = initial_state.g_lib_channel_global i) ∧
      f.state.g_lib_channel_global = initial_state.g_lib_channel_global :=
  C1_init_then_final initial_state 2 100 200 env_init_ok ⟨0⟩ (by decide) rfl
    (by decide) (by decide) (fun _ _ h => absurd rfl h) (by decide)
    ⟨1000, by decide⟩ rfl

/-- C2: every call of `Iccom_lib_Init` whose parameter pointer is null, or
whose receive buffer is null, or whose callback is null, or whose channel
number read as an unsigned 32-bit value is at least 8, returns ICCOM_ERR_PARAM
and performs no transport open (it makes no library call at all, stores no
handle and leaves the state as it was). -/
theorem C2_init_param_error (s : LibState)
    (pIccomInit : Option Iccom_init_param) (env : InitEnv)
    (hbad : pIccomInit = none ∨
      ∃ ip, pIccomInit = some ip ∧
        (ip.recv_buf = NULL ∨ ip.recv_cb = NULL ∨
          to_uint32 ip.channel_no ≥ ICCOM_CHANNEL_MAX)) :
    (Iccom_lib_Init s pIccomInit env).retcode = ICCOM_ERR_PARAM ∧
    ¬ open_performed (Iccom_lib_Init s pIccomInit env).events ∧
    (Iccom_lib_Init s pIccomInit env).events = [] ∧
    (Iccom_lib_Init s pIccomInit env).pChannelHandle = none ∧
    (Iccom_lib_Init s pIccomInit env).state = s := by
  rcases hbad with h | ⟨ip, h, hip⟩
  · subst h
    simp [Iccom_lib_Init, Iccom_lib_Init_abnormal, open_performed]
  · subst h
    simp [Iccom_lib_Init, Iccom_lib_Init_abnormal, open_performed, hip]

theorem C2_init_param_error_witness :
    (Iccom_lib_Init initial_state (some ⟨-1, 100, 200⟩) env_init_ok).retcode
      = ICCOM_ERR_PARAM ∧
    ¬ open_performed
      (Iccom_lib_Init initial_state (some ⟨-1, 100, 200⟩) env_init_ok).events ∧
    (Iccom_lib_Init initial_state (some ⟨-1, 100, 200⟩) env_init_ok).events
      = [] ∧
    (Iccom_lib_Init initial_state
      (some ⟨-1, 100, 200⟩) env_init_ok).pChannelHandle = none ∧
    (Iccom_lib_Init initial_state (some ⟨-1, 100, 200⟩) env_init_ok).state
      = initial_state :=
  C2_init_param_error initial_state (some ⟨-1, 100, 200⟩) env_init_ok
    (Or.inr ⟨⟨-1, 100, 200⟩, rfl, Or.inr (Or.inr (by decide))⟩)

/-- C3: for every `Iccom_lib_Init` call with valid parameters whose transport
open fails with error code e, the result is ICCOM_ERR_BUSY when e is EBUSY,
ICCOM_ERR_TO_INIT when e is EDEADLK, ICCOM_ERR_UNSUPPORT when e is ENOENT,
ENODEV or ENXIO, and ICCOM_NG for every other e. -/
theorem C3_init_open_error (s : LibState) (ip : Iccom_init_param)
    (env : InitEnv) (hbuf : ip.recv_buf ≠ NULL) (hcb : ip.recv_cb ≠ NULL)
    (hch : to_uint32 ip.channel_no < ICCOM_CHANNEL_MAX)
    (hfail : env.open_ret < 0) :
    (env.open_errno = EBUSY →
      (Iccom_lib_Init s (some ip) env).retcode = ICCOM_ERR_BUSY) ∧
    (env.open_errno = EDEADLK →
      (Iccom_lib_Init s (some ip) env).retcode = ICCOM_ERR_TO_INIT) ∧
    (env.open_errno = ENOENT ∨ env.open_errno = ENODEV ∨
        env.open_errno = ENXIO →
      (Iccom_lib_Init s (some ip) env).retcode = ICCOM_ERR_UNSUPPORT) ∧
    (env.open_errno ≠ EBUSY → env.open_errno ≠ EDEADLK →
        env.open_errno ≠ ENOENT → env.open_errno ≠ ENODEV →
        env.open_errno ≠ ENXIO →
      (Iccom_lib_Init s (some ip) env).retcode = ICCOM_NG) := by
  have h8 : ¬ (8 ≤ to_uint32 ip.channel_no) := by simpa using hch
  have hret : (Iccom_lib_Init s (some ip) env).retcode
      = open_errno_retcode env.open_errno := by
    simp [Iccom_lib_Init, Iccom_lib_Init_abnormal, hbuf, hcb, h8,
      snprintf_ret_nonneg, hfail]
  rw [hret]
  unfold open_errno_retcode
  refine ⟨?_, ?_, ?_, ?_⟩
  · intro h; simp [h]
  · intro h; simp [h]
  · intro h; rcases h with h | h | h <;> simp [h]
  · intro h1 h2 h3 h4 h5; simp [h1, h2, h3, h4, h5]

theorem C3_init_open_error_witness :
    ((16 : Int) = EBUSY →
      (Iccom_lib_Init initial_state (some param_ch2)
        ⟨-1, 16, 1000, 0, 7⟩).retcode = ICCOM_ERR_BUSY) ∧
    (Iccom_lib_Init initial_state (some param_ch2)
        ⟨-1, 16, 1000, 0, 7⟩).retcode = -5 :=
  ⟨(C3_init_open_error initial_state param_ch2 ⟨-1, 16, 1000, 0, 7⟩
      (by decide) (by decide) (by decide) (by decide)).1,
   by decide⟩

/-- C4: every `Iccom_lib_Init` call that returns a value other than ICCOM_OK
leaves every registry slot unchanged, stores nothing through the output handle
and has released whatever it acquired: a descriptor returned by the open is
closed, a channel lock that was initialised is destroyed, a block that was
allocated is freed (and is no longer allocated on return, every other block
being untouched), and no receive task has been started. -/
theorem C4_init_rollback (s : LibState) (pIccomInit : Option Iccom_init_param)
    (env : InitEnv)
    (hfail : (Iccom_lib_Init s pIccomInit env).retcode ≠ ICCOM_OK) :
    (Iccom_lib_Init s pIccomInit env).state.g_lib_channel_global
      = s.g_lib_channel_global ∧
    (Iccom_lib_Init s pIccomInit env).pChannelHandle = none ∧
    (∀ n fd, Event.open_dev n fd ∈ (Iccom_lib_Init s pIccomInit env).events →
      0 ≤ fd → Event.close fd ∈ (Iccom_lib_Init s pIccomInit env).events) ∧
    (∀ ch, Event.pthread_mutex_init ch
        ∈ (Iccom_lib_Init s pIccomInit env).events →
      Event.pthread_mutex_destroy ch
        ∈ (Iccom_lib_Init s pIccomInit env).events) ∧
    (∀ p, Event.malloc p ∈ (Iccom_lib_Init s pIccomInit env).events →
      p ≠ NULL →
      Event.free p ∈ (Iccom_lib_Init s pIccomInit env).events ∧
      (Iccom_lib_Init s pIccomInit env).state.heap p = none) ∧
    (∀ q, q ≠ env.malloc_ret →
      (Iccom_lib_Init s pIccomInit env).state.heap q = s.heap q) ∧
    ¬ recv_thread_started (Iccom_lib_Init s pIccomInit env) := by
  cases pIccomInit with
  | none =>
    simp [Iccom_lib_Init, Iccom_lib_Init_abnormal, recv_thread_started]
  | some ip =>
    unfold Iccom_lib_Init at hfail ⊢
    simp only [] at hfail ⊢
    split_ifs at hfail ⊢ with h1 h2 h3 h4 h5
    · simp [Iccom_lib_Init_abnormal, recv_thread_started]
    · simp [Iccom_lib_Init_abnormal, recv_thread_started]
    · simp only [Iccom_lib_Init_abnormal, recv_thread_started]
      have h3' : ¬ (0 ≤ env.open_ret) := by omega
      simp [h3']
      exact h3
    · have h3' : 0 ≤ env.open_ret := by omega
      simp [Iccom_lib_Init_abnormal, recv_thread_started, h3', h4]
    · have h3' : 0 ≤ env.open_ret := by omega
      have h5' : ¬ (0 = env.pthread_create_ret) := fun h => h5 h.symm
      simp [Iccom_lib_Init_abnormal, recv_thread_started, h3', h4, h5']
      intro q hq
      simp [Function.update_noteq hq]
    · exact absurd rfl hfail

theorem C4_init_rollback_witness :
    (Iccom_lib_Init initial_state (some param_ch2) env_create_fails).retcode
      = ICCOM_NG ∧
    (Iccom_lib_Init initial_state (some param_ch2) env_create_fails).events
      = [Event.open_dev 2 3, Event.malloc 1000, Event.pthread_mutex_init 2,
         Event.pthread_create 1000 11, Event.close 3,
         Event.pthread_mutex_destroy 2, Event.free 1000] ∧
    (Iccom_lib_Init initial_state
      (some param_ch2) env_create_fails).state.g_lib_channel_global
      = initial_state.g_lib_channel_global ∧
    (Iccom_lib_Init initial_state
      (some param_ch2) env_create_fails).pChannelHandle = none :=
  ⟨by decide, by decide,
   (C4_init_rollback initial_state (some param_ch2) env_create_fails
      (by decide)).1,
   (C4_init_rollback initial_state (some param_ch2) env_create_fails
      (by decide)).2.1⟩

/-- When `Iccom_lib_Init` returns ICCOM_OK every step of the call had
succeeded. -/
theorem Iccom_lib_Init_ok_cond (s : LibState)
    (pIccomInit : Option Iccom_init_param) (env : InitEnv)
    (h : (Iccom_lib_Init s pIccomInit env).retcode = ICCOM_OK) :
    ∃ ip, pIccomInit = some ip ∧ ip.recv_buf ≠ NULL ∧ ip.recv_cb ≠ NULL ∧
      to_uint32 ip.channel_no < ICCOM_CHANNEL_MAX ∧ 0 ≤ env.open_ret ∧
      env.malloc_ret ≠ NULL ∧ env.pthread_create_ret = 0 := by
  cases pIccomInit with
  | none => simp [Iccom_lib_Init, Iccom_lib_Init_abnormal] at h
  | some ip =>
    refine ⟨ip, rfl, ?_⟩
    unfold Iccom_lib_Init at h
    simp only [] at h
    split_ifs at h with h1 h2 h3 h4 h5
    · simp [Iccom_lib_Init_abnormal] at h
    · simp [Iccom_lib_Init_abnormal] at h
    · simp only [Iccom_lib_Init_abnormal, open_errno_retcode] at h
      split_ifs at h <;> simp at h
    · simp [Iccom_lib_Init_abnormal, h4] at h
    · simp [Iccom_lib_Init_abnormal, h4] at h
    · push_neg at h1
      refine ⟨h1.1, h1.2.1, h1.2.2, by omega, h4, ?_⟩
      simpa using h5

/-- C5: for every valid channel id, after a successful `Iccom_lib_Init`
returning handle h, an `Iccom_lib_Send` with handle h, a non-null buffer and a
size n not above 2048, for which the transport write reports exactly n bytes
written, returns ICCOM_OK, and the write was issued exactly once, on the
descriptor the Init opened, with that buffer and that size n. -/
theorem C5_send_after_init (s : LibState) (ip : Iccom_init_param)
    (env : InitEnv) (send_buf : Ptr) (n : Nat) (senv : SendEnv)
    (hok : (Iccom_lib_Init s (some ip) env).retcode = ICCOM_OK)
    (hfresh : malloc_fresh s env.malloc_ret)
    (hbuf : send_buf ≠ NULL) (hn : n ≤ ICCOM_BUF_MAX_SIZE)
    (hw : senv.write_ret = (n : Int)) :
    ∃ h r,
      (Iccom_lib_Init s (some ip) env).pChannelHandle = some h ∧
      to_uint32 ip.channel_no < ICCOM_CHANNEL_MAX ∧
      Iccom_lib_Send (Iccom_lib_Init s (some ip) env).state
        (some ⟨h, n, send_buf⟩) senv = some r ∧
      r.retcode = ICCOM_OK ∧
      Event.open_dev (to_uint32 ip.channel_no) env.open_ret
        ∈ (Iccom_lib_Init s (some ip) env).events ∧
      r.events.filter is_write
        = [Event.write env.open_ret send_buf n (n : Int)] := by
  obtain ⟨ip', hip, hb, hcb, hch, hopen, hmalloc, hcreate⟩ :=
    Iccom_lib_Init_ok_cond s _ env hok
  cases hip
  rw [Iccom_lib_Init_success s ip env hb hcb hch hopen hmalloc hcreate]
  have hchk := check_handle_after_init s (to_uint32 ip.channel_no)
    env.malloc_ret (init_info ip env) hch hmalloc hfresh rfl
  have hn' : ¬ (2048 < n) := by
    have : n ≤ 2048 := hn
    omega
  refine ⟨env.malloc_ret, ?_⟩
  simp only [Iccom_lib_Send, hchk, Iccom_lib_Send_channel]
  simp [hn', hbuf, hmalloc, init_info, hw, send_write_retcode, is_write]
  exact hch

theorem C5_send_after_init_witness :
    ∃ h r,
      (Iccom_lib_Init initial_state (some param_ch2) env_init_ok).pChannelHandle
        = some h ∧
      to_uint32 param_ch2.channel_no < ICCOM_CHANNEL_MAX ∧
      Iccom_lib_Send (Iccom_lib_Init initial_state (some param_ch2)
        env_init_ok).state (some ⟨h, 3, 500⟩) ⟨((3 : Nat) : Int), 0⟩ = some r ∧
      r.retcode = ICCOM_OK ∧
      Event.open_dev (to_uint32 param_ch2.channel_no) env_init_ok.open_ret
        ∈ (Iccom_lib_Init initial_state (some param_ch2) env_init_ok).events ∧
      r.events.filter is_write
        = [Event.write env_init_ok.open_ret 500 3 ((3 : Nat) : Int)] :=
  C5_send_after_init initial_state param_ch2 env_init_ok 500 3
    ⟨((3 : Nat) : Int), 0⟩ (by decide) (fun _ _ h => absurd rfl h)
    (by decide) (by decide) rfl

/-- C6: for every handle (live, stale or null) and every state, an
`Iccom_lib_Send` whose size is greater than 2048 or whose send buffer is null
returns ICCOM_ERR_PARAM, makes no library call (so no transport write) and
leaves the state, hence the registry and every send request counter, as it
was. -/
theorem C6_send_param_error (s : LibState) (sp : Iccom_send_param)
    (senv : SendEnv)
    (hbad : sp.send_size > ICCOM_BUF_MAX_SIZE ∨ sp.send_buf = NULL) :
    Iccom_lib_Send s (some sp) senv =
      some { retcode := ICCOM_ERR_PARAM, state := s, events := [] } := by
  simp [Iccom_lib_Send, hbad]

theorem C6_send_param_error_witness :
    Iccom_lib_Send initial_state (some ⟨1000, 2049, 500⟩) ⟨2049, 0⟩ =
      some { retcode := ICCOM_ERR_PARAM, state := initial_state,
             events := [] } :=
  C6_send_param_error initial_state ⟨1000, 2049, 500⟩ ⟨2049, 0⟩
    (Or.inl (by decide))

/-- The loop never moves `ch_loop` backwards nor past the last index. -/
theorem check_handle_loop_bounds (g : Nat → Ptr) (p : Ptr) :
    ∀ (n k : Nat), k ≤ check_handle_loop g p n k ∧
      check_handle_loop g p n k ≤ k + n := by
  intro n
  induction n with
  | zero => intro k; simp [check_handle_loop]
  | succ n ih =>
    intro k
    unfold check_handle_loop
    by_cases hk : g k = p
    · rw [if_pos hk]; omega
    · rw [if_neg hk]
      have := ih (k + 1)
      omega

/-- When the loop is left before the last index, the slot at `ch_loop` holds
the handle. -/
theorem check_handle_loop_hit (g : Nat → Ptr) (p : Ptr) :
    ∀ (n k : Nat), check_handle_loop g p n k < k + n →
      g (check_handle_loop g p n k) = p := by
  intro n
  induction n with
  | zero =>
    intro k h
    simp [check_handle_loop] at h
  | succ n ih =>
    intro k h
    unfold check_handle_loop at h ⊢
    by_cases hk : g k = p
    · rw [if_pos hk]; exact hk
    · rw [if_neg hk] at h ⊢
      exact ih (k + 1) (by omega)

/-- No slot below the index at which the loop is left holds the handle. -/
theorem check_handle_loop_min (g : Nat → Ptr) (p : Ptr) :
    ∀ (n k i : Nat), k ≤ i → i < check_handle_loop g p n k → g i ≠ p := by
  intro n
  induction n with
  | zero =>
    intro k i h1 h2
    simp [check_handle_loop] at h2
    omega
  | succ n ih =>
    intro k i h1 h2
    unfold check_handle_loop at h2
    by_cases hk : g k = p
    · rw [if_pos hk] at h2; omega
    · rw [if_neg hk] at h2
      by_cases hik : i = k
      · rw [hik]; exact hk
      · exact ih (k + 1) i (by omega) h2

/-- What a successful `iccom_lib_check_handle` establishes. -/
theorem check_handle_ok_inv (s : LibState) (h : Ptr) (r : CheckResult)
    (hr : iccom_lib_check_handle s h = some r) (hok : r.retcode = ICCOM_OK) :
    h ≠ NULL ∧ ∃ c info,
      r = { retcode := ICCOM_OK, channel_no := some c,
            events := [Event.lock_global, Event.unlock_global] } ∧
      c < ICCOM_CHANNEL_MAX ∧ s.g_lib_channel_global c = h ∧
      (∀ i, i < c → s.g_lib_channel_global i ≠ h) ∧
      s.heap h = some info ∧ to_uint32 info.channel_no = c := by
  unfold iccom_lib_check_handle at hr
  by_cases h0 : h = NULL
  · rw [if_pos h0] at hr
    cases hr
    simp at hok
  · rw [if_neg h0] at hr
    refine ⟨h0, ?_⟩
    simp only [] at hr
    by_cases hge :
        check_handle_loop s.g_lib_channel_global h ICCOM_CHANNEL_MAX 0
          ≥ ICCOM_CHANNEL_MAX
    · rw [if_pos hge] at hr
      cases hr
      simp at hok
    · rw [if_neg hge] at hr
      cases hheap : s.heap h with
      | none => simp [hheap] at hr
      | some info =>
        simp only [hheap] at hr
        by_cases hne : to_uint32 info.channel_no ≠
            check_handle_loop s.g_lib_channel_global h ICCOM_CHANNEL_MAX 0
        · rw [if_pos hne] at hr
          cases hr
          simp at hok
        · rw [if_neg hne] at hr
          push_neg at hne
          have hlt : check_handle_loop s.g_lib_channel_global h
              ICCOM_CHANNEL_MAX 0 < 0 + ICCOM_CHANNEL_MAX := by omega
          refine ⟨to_uint32 info.channel_no, info, ?_, ?_, ?_, ?_, rfl, rfl⟩
          · cases hr; rfl
          · rw [hne]; omega
          · rw [hne]
            exact check_handle_loop_hit _ _ _ _ hlt
          · intro i hi
            rw [hne] at hi
            exact check_handle_loop_min _ _ _ 0 i (Nat.zero_le i) hi

/-- The calls `iccom_lib_check_handle` makes are at most one lock and one
unlock of the global mutex. -/
theorem check_handle_events (s : LibState) (h : Ptr) (r : CheckResult)
    (hr : iccom_lib_check_handle s h = some r) :
    r.events = [] ∨ r.events = [Event.lock_global, Event.unlock_global] := by
  unfold iccom_lib_check_handle at hr
  by_cases h0 : h = NULL
  · rw [if_pos h0] at hr
    cases hr; exact Or.inl rfl
  · rw [if_neg h0] at hr
    simp only [] at hr
    by_cases hge :
        check_handle_loop s.g_lib_channel_global h ICCOM_CHANNEL_MAX 0
          ≥ ICCOM_CHANNEL_MAX
    · rw [if_pos hge] at hr
      cases hr; exact Or.inr rfl
    · rw [if_neg hge] at hr
      cases hheap : s.heap h with
      | none => simp [hheap] at hr
      | some info =>
        simp only [hheap] at hr
        split_ifs at hr
        · cases hr; exact Or.inr rfl
        · cases hr; exact Or.inr rfl

/-- The outcome of `Iccom_lib_Send` with valid parameters on a handle that
resolves: the counter is raised, the write is issued, the counter is
lowered. -/
theorem Iccom_lib_Send_resolved (s : LibState) (sp : Iccom_send_param)
    (senv : SendEnv) (r : CheckResult)
    (hsize : sp.send_size ≤ ICCOM_BUF_MAX_SIZE) (hbuf : sp.send_buf ≠ NULL)
    (hr : iccom_lib_check_handle s sp.channel_handle = some r)
    (hok : r.retcode = ICCOM_OK) :
    ∃ c info, c < ICCOM_CHANNEL_MAX ∧
      s.g_lib_channel_global c = sp.channel_handle ∧
      s.heap sp.channel_handle = some info ∧
      Iccom_lib_Send s (some sp) senv =
        some { retcode :=
                 send_write_retcode sp.send_size senv.write_ret
                   senv.write_errno
               state :=
                 { g_lib_channel_global := s.g_lib_channel_global
                   heap := Function.update s.heap sp.channel_handle
                     (some { info with
                       send_req_cnt :=
                         uint32_dec (uint32_inc info.send_req_cnt) }) }
               events :=
                 [Event.lock_global, Event.unlock_global,
                  Event.lock_channel c,
                  Event.store_send_req_cnt sp.channel_handle
                    (uint32_inc info.send_req_cnt),
                  Event.unlock_channel c,
                  Event.write info.fd sp.send_buf sp.send_size senv.write_ret,
                  Event.lock_channel c,
                  Event.store_send_req_cnt sp.channel_handle
                    (uint32_dec (uint32_inc info.send_req_cnt)),
                  Event.unlock_channel c] } := by
  obtain ⟨h0, c, info, hreq, hc, hslot, -, hheap, -⟩ :=
    check_handle_ok_inv s sp.channel_handle r hr hok
  refine ⟨c, info, hc, hslot, hheap, ?_⟩
  have hsz : ¬ (2048 < sp.send_size) := by
    have : sp.send_size ≤ 2048 := hsize
    omega
  have hg : ¬ (s.g_lib_channel_global c = 0) := by
    rw [hslot]; exact h0
  rw [hreq] at hr
  simp [Iccom_lib_Send, hsz, hbuf, hr, Iccom_lib_Send_channel, hg, hheap]

/-- An `Iccom_lib_Send` whose calls include a transport write took the path
of a resolved handle; the write carries the requested size and the result the
environment gave. -/
theorem Iccom_lib_Send_write_inv (s : LibState) (sp : Iccom_send_param)
    (senv : SendEnv) (r : CallResult) (fd : Int) (buf : Ptr) (n : Nat)
    (w : Int) (hr : Iccom_lib_Send s (some sp) senv = some r)
    (hw : Event.write fd buf n w ∈ r.events) :
    n = sp.send_size ∧ w = senv.write_ret ∧ buf = sp.send_buf ∧
    r.retcode =
      send_write_retcode sp.send_size senv.write_ret senv.write_errno := by
  by_cases hbad : sp.send_size > ICCOM_BUF_MAX_SIZE ∨ sp.send_buf = NULL
  · simp [Iccom_lib_Send, hbad] at hr
    rw [← hr] at hw
    simp at hw
  · push_neg at hbad
    obtain ⟨hs, hb⟩ := hbad
    have hs' : sp.send_size ≤ 2048 := hs
    have hsz : ¬ (2048 < sp.send_size) := by omega
    cases hchk : iccom_lib_check_handle s sp.channel_handle with
    | none => simp [Iccom_lib_Send, hchk, hsz, hb] at hr
    | some cr =>
      by_cases hok : cr.retcode = ICCOM_OK
      · obtain ⟨c, info, -, -, -, heq⟩ :=
          Iccom_lib_Send_resolved s sp senv cr hs hb hchk hok
        rw [heq] at hr
        cases hr
        simp at hw
        obtain ⟨-, h2, h3, h4⟩ := hw
        exact ⟨h3, h4, h2, rfl⟩
      · have hev := check_handle_events s sp.channel_handle cr hchk
        simp [Iccom_lib_Send, hsz, hb, hchk, hok] at hr
        rw [← hr] at hw
        rcases hev with hev | hev <;> simp [hev] at hw

/-- C7: for every `Iccom_lib_Send` call that reaches the transport write with
requested size n and write result w: if w = n the result is ICCOM_OK; if w < 0
the result is ICCOM_ERR_BUF_FULL for ENOSPC, ICCOM_ERR_TO_ACK for ETIMEDOUT,
ICCOM_ERR_TO_SEND for EDEADLK and ICCOM_NG for every other error code; if
0 <= w < n the result is ICCOM_ERR_SIZE, a code distinct from all of the
transport-error results. -/
theorem C7_send_write_result (s : LibState) (sp : Iccom_send_param)
    (senv : SendEnv) (r : CallResult) (n : Nat) (w : Int)
    (hr : Iccom_lib_Send s (some sp) senv = some r)
    (hreach : ∃ fd buf, Event.write fd buf n w ∈ r.events) :
    (w = (n : Int) → r.retcode = ICCOM_OK) ∧
    (w < 0 →
      (senv.write_errno = ENOSPC → r.retcode = ICCOM_ERR_BUF_FULL) ∧
      (senv.write_errno = ETIMEDOUT → r.retcode = ICCOM_ERR_TO_ACK) ∧
      (senv.write_errno = EDEADLK → r.retcode = ICCOM_ERR_TO_SEND) ∧
      (senv.write_errno ≠ ENOSPC → senv.write_errno ≠ ETIMEDOUT →
        senv.write_errno ≠ EDEADLK → r.retcode = ICCOM_NG)) ∧
    (0 ≤ w → w < (n : Int) → r.retcode = ICCOM_ERR_SIZE) ∧
    ICCOM_ERR_SIZE ≠ ICCOM_ERR_BUF_FULL ∧ ICCOM_ERR_SIZE ≠ ICCOM_ERR_TO_ACK ∧
    ICCOM_ERR_SIZE ≠ ICCOM_ERR_TO_SEND ∧ ICCOM_ERR_SIZE ≠ ICCOM_NG := by
  obtain ⟨fd, buf, hw⟩ := hreach
  obtain ⟨hn, hwr, -, hret⟩ :=
    Iccom_lib_Send_write_inv s sp senv r fd buf n w hr hw
  rw [hret, ← hn, ← hwr]
  unfold send_write_retcode
  refine ⟨?_, ?_, ?_, by decide, by decide, by decide, by decide⟩
  · intro h; simp [h]
  · intro hneg
    have hne : w ≠ (n : Int) := by omega
    refine ⟨?_, ?_, ?_, ?_⟩
    · intro h; simp [hne, hneg, h]
    · intro h; simp [hne, hneg, h]
    · intro h; simp [hne, hneg, h]
    · intro h1 h2 h3; simp [hne, hneg, h1, h2, h3]
  · intro h0 hlt
    have hne : w ≠ (n : Int) := by omega
    have hnn : ¬ (w < 0) := by omega
    simp [hne, hnn]

set_option maxRecDepth 8192 in
theorem C7_send_write_result_witness :
    ∃ r, Iccom_lib_Send state_ch2_open (some ⟨1000, 3, 500⟩) ⟨2, 0⟩ = some r ∧
      r.retcode = ICCOM_ERR_SIZE :=
  ⟨_, Option.eq_some_of_isSome (by decide),
   (C7_send_write_result state_ch2_open ⟨1000, 3, 500⟩ ⟨2, 0⟩ _ 3 2
      (Option.eq_some_of_isSome (by decide)) ⟨3, 500, by decide⟩).2.2.1
      (by decide) (by decide)⟩

/-- Under `registry_wf`, `iccom_lib_check_handle` never reads an unallocated
block. -/
theorem check_handle_defined (s : LibState) (h : Ptr) (hwf : registry_wf s) :
    ∃ r, iccom_lib_check_handle s h = some r := by
  unfold iccom_lib_check_handle
  by_cases h0 : h = NULL
  · exact ⟨_, if_pos h0⟩
  · rw [if_neg h0]
    simp only []
    by_cases hge :
        check_handle_loop s.g_lib_channel_global h ICCOM_CHANNEL_MAX 0
          ≥ ICCOM_CHANNEL_MAX
    · exact ⟨_, if_pos hge⟩
    · rw [if_neg hge]
      have hlt : check_handle_loop s.g_lib_channel_global h
          ICCOM_CHANNEL_MAX 0 < 0 + ICCOM_CHANNEL_MAX := by omega
      have hhit := check_handle_loop_hit _ _ _ _ hlt
      have hall := hwf
        (check_handle_loop s.g_lib_channel_global h ICCOM_CHANNEL_MAX 0)
        (by omega) (by rw [hhit]; exact h0)
      rw [hhit] at hall
      cases hheap : s.heap h with
      | none => exact absurd hheap hall
      | some info =>
        simp only []
        split_ifs
        · exact ⟨_, rfl⟩
        · exact ⟨_, rfl⟩

/-- Raising and then lowering the counter of an allocated block gives back
the state. -/
theorem counter_restore (s : LibState) (h : Ptr) (info : iccom_channel_info_t)
    (hheap : s.heap h = some info) (hlt : info.send_req_cnt < 4294967296) :
    ({ g_lib_channel_global := s.g_lib_channel_global
       heap := Function.update s.heap h
         (some { info with
           send_req_cnt := uint32_dec (uint32_inc info.send_req_cnt) }) }
      : LibState) = s := by
  rw [uint32_dec_inc _ hlt]
  have hupd : Function.update s.heap h (some info) = s.heap :=
    Function.update_eq_self_iff.mpr hheap.symm
  cases s with
  | mk g heap =>
    simp only [LibState.mk.injEq, true_and]
    exact hupd

/-- C8: for every `Iccom_lib_Send` call and every outcome, the state on return
is the state on entry, so every send request counter has the value it had on
entry.  The stores to a counter and the transport writes of the call are
either none at all, or exactly one store of the counter raised by one (in
`uint32_t` arithmetic), then the write, then one store of the entry value: the
counter is lowered only where it was raised. -/
theorem C8_send_counter_balance (s : LibState)
    (pIccomSend : Option Iccom_send_param) (senv : SendEnv)
    (hwf : registry_wf s) (hcnt : counters_wf s) :
    ∃ r, Iccom_lib_Send s pIccomSend senv = some r ∧ r.state = s ∧
      (r.events.filter is_write_or_store = [] ∨
        ∃ sp info, pIccomSend = some sp ∧
          s.heap sp.channel_handle = some info ∧
          (uint32_inc info.send_req_cnt = info.send_req_cnt + 1 ∨
            (info.send_req_cnt = 4294967295 ∧
              uint32_inc info.send_req_cnt = 0)) ∧
          r.events.filter is_write_or_store =
            [Event.store_send_req_cnt sp.channel_handle
               (uint32_inc info.send_req_cnt),
             Event.write info.fd sp.send_buf sp.send_size senv.write_ret,
             Event.store_send_req_cnt sp.channel_handle
               info.send_req_cnt]) := by
  cases pIccomSend with
  | none => exact ⟨_, rfl, rfl, Or.inl rfl⟩
  | some sp =>
    by_cases hbad : sp.send_size > ICCOM_BUF_MAX_SIZE ∨ sp.send_buf = NULL
    · exact ⟨{ retcode := ICCOM_ERR_PARAM, state := s, events := [] },
        by simp [Iccom_lib_Send, hbad], rfl, Or.inl rfl⟩
    · push_neg at hbad
      obtain ⟨hs, hb⟩ := hbad
      have hs' : sp.send_size ≤ 2048 := hs
      have hsz : ¬ (2048 < sp.send_size) := by omega
      obtain ⟨cr, hchk⟩ := check_handle_defined s sp.channel_handle hwf
      by_cases hok : cr.retcode = ICCOM_OK
      · obtain ⟨c, info, -, -, hheap, heq⟩ :=
          Iccom_lib_Send_resolved s sp senv cr hs hb hchk hok
        have hlt := hcnt _ _ hheap
        have hdi := uint32_dec_inc info.send_req_cnt hlt
        refine ⟨_, heq, ?_, Or.inr ⟨sp, info, rfl, hheap, ?_, ?_⟩⟩
        · exact counter_restore s sp.channel_handle info hheap hlt
        · unfold uint32_inc
          omega
        · simp [is_write_or_store, hdi]
      · have hev := check_handle_events s sp.channel_handle cr hchk
        refine ⟨{ retcode := cr.retcode, state := s, events := cr.events },
          by simp [Iccom_lib_Send, hsz, hb, hchk, hok], rfl, Or.inl ?_⟩
        rcases hev with hev | hev <;> simp [hev, is_write_or_store]

/-- The outcome of `Iccom_lib_Send` (valid buffer and size) and of
`Iccom_lib_Final` on a handle that is null or stored in no slot, whatever the
heap holds. -/
theorem unresolved_handle_rejected (s : LibState) (h send_buf : Ptr) (n : Nat)
    (senv : SendEnv) (fenv : FinalEnv)
    (hno : h = NULL ∨ ∀ i, i < ICCOM_CHANNEL_MAX → s.g_lib_channel_global i ≠ h)
    (hbuf : send_buf ≠ NULL) (hn : n ≤ ICCOM_BUF_MAX_SIZE) :
    Iccom_lib_Send s (some ⟨h, n, send_buf⟩) senv =
      some { retcode := ICCOM_ERR_PARAM, state := s
             events := if h = NULL then []
                       else [Event.lock_global, Event.unlock_global] } ∧
    Iccom_lib_Final s h fenv =
      some { retcode := ICCOM_ERR_PARAM, state := s
             events := if h = NULL then []
                       else [Event.lock_global, Event.unlock_global] } := by
  have hchk := check_handle_unknown s h hno
  have hn' : n ≤ 2048 := hn
  have hsz : ¬ (2048 < n) := by omega
  constructor
  · simp [Iccom_lib_Send, hsz, hbuf, hchk]
  · simp [Iccom_lib_Final, hchk]

/-- C9: for every handle that does not resolve because it is null or stored in
no slot of the registry (never returned by Init, or already finalised), both
`Iccom_lib_Send` (with an otherwise valid buffer and size) and
`Iccom_lib_Final` return ICCOM_ERR_PARAM, whatever the heap holds at the
handle (no field of the block is read: the outcome is defined even where the
block is not allocated), make no call but the lock and unlock of the global
mutex, and leave the state unchanged.  In particular, after a successful Init
and a successful Final of the handle it returned, Send and Final on that
handle return ICCOM_ERR_PARAM. -/
theorem C9_unresolved_handle :
    (∀ (s : LibState) (h send_buf : Ptr) (n : Nat) (senv : SendEnv)
        (fenv : FinalEnv),
      (h = NULL ∨
        ∀ i, i < ICCOM_CHANNEL_MAX → s.g_lib_channel_global i ≠ h) →
      send_buf ≠ NULL → n ≤ ICCOM_BUF_MAX_SIZE →
      ∀ heap,
        Iccom_lib_Send ⟨s.g_lib_channel_global, heap⟩
            (some ⟨h, n, send_buf⟩) senv =
          some { retcode := ICCOM_ERR_PARAM
                 state := ⟨s.g_lib_channel_global, heap⟩
                 events := if h = NULL then []
                           else [Event.lock_global, Event.unlock_global] } ∧
        Iccom_lib_Final ⟨s.g_lib_channel_global, heap⟩ h fenv =
          some { retcode := ICCOM_ERR_PARAM
                 state := ⟨s.g_lib_channel_global, heap⟩
                 events := if h = NULL then []
                           else [Event.lock_global, Event.unlock_global] }) ∧
    (∀ (s : LibState) (ip : Iccom_init_param) (env : InitEnv)
        (fenv fenv2 : FinalEnv) (senv : SendEnv) (h send_buf : Ptr) (n : Nat)
        (f : CallResult),
      (Iccom_lib_Init s (some ip) env).retcode = ICCOM_OK →
      (Iccom_lib_Init s (some ip) env).pChannelHandle = some h →
      malloc_fresh s env.malloc_ret →
      Iccom_lib_Final (Iccom_lib_Init s (some ip) env).state h fenv = some f →
      f.retcode = ICCOM_OK →
      send_buf ≠ NULL → n ≤ ICCOM_BUF_MAX_SIZE →
      Iccom_lib_Send f.state (some ⟨h, n, send_buf⟩) senv =
        some { retcode := ICCOM_ERR_PARAM, state := f.state
               events := [Event.lock_global, Event.unlock_global] } ∧
      Iccom_lib_Final f.state h fenv2 =
        some { retcode := ICCOM_ERR_PARAM, state := f.state
               events := [Event.lock_global, Event.unlock_global] }) := by
  constructor
  · intro s h send_buf n senv fenv hno hbuf hn heap
    exact unresolved_handle_rejected ⟨s.g_lib_channel_global, heap⟩ h send_buf
      n senv fenv hno hbuf hn
  · intro s ip env fenv fenv2 senv h send_buf n f hok hh hfresh hfin hfok
      hbuf hn
    obtain ⟨ip', hip, hb, hcb, hch, hopen, hmalloc, hcreate⟩ :=
      Iccom_lib_Init_ok_cond s _ env hok
    cases hip
    rw [Iccom_lib_Init_success s ip env hb hcb hch hopen hmalloc hcreate]
      at hh hfin
    simp only [Option.some.injEq] at hh
    subst hh
    have hchk := check_handle_after_init s (to_uint32 ip.channel_no)
      env.malloc_ret (init_info ip env) hch hmalloc hfresh rfl
    have hnn : ¬ (env.malloc_ret = 0) := hmalloc
    simp only [Iccom_lib_Final, hchk, Iccom_lib_Final_channel] at hfin
    simp [hnn, init_info] at hfin
    by_cases hio : fenv.ioctl_ret = 0
    · simp [hio] at hfin
      have hno : ∀ i, i < ICCOM_CHANNEL_MAX →
          f.state.g_lib_channel_global i ≠ env.malloc_ret := by
        intro i hi
        rw [← hfin]
        by_cases hic : i = to_uint32 ip.channel_no
        · subst hic
          simp
          exact fun h => hmalloc h.symm
        · simp [Function.update_noteq hic]
          by_cases h0 : s.g_lib_channel_global i = NULL
          · rw [h0]; exact fun h => hmalloc h.symm
          · exact hfresh i hi h0
      have hres := unresolved_handle_rejected f.state env.malloc_ret send_buf
        n senv fenv2 (Or.inr hno) hbuf hn
      simpa [hnn] using hres
    · simp [hio] at hfin
      rw [← hfin] at hfok
      simp at hfok

/-- C10: for every handle that resolves and whose block has a non-zero send
request counter, `Iccom_lib_Final` returns ICCOM_ERR_PARAM; its calls are the
lock and unlock of the global mutex by the handle check followed by the lock
and the unlock of the channel mutex, so it issues no cancel-receive ioctl, no
join and no close and releases the channel lock before returning; the state is
unchanged, so the block stays registered in its slot with its counter. -/
theorem C10_final_while_sending (s : LibState) (h : Ptr) (fenv : FinalEnv)
    (cr : CheckResult) (info : iccom_channel_info_t)
    (hr : iccom_lib_check_handle s h = some cr)
    (hok : cr.retcode = ICCOM_OK)
    (hheap : s.heap h = some info) (hcnt : info.send_req_cnt ≠ 0) :
    ∃ c, c < ICCOM_CHANNEL_MAX ∧ s.g_lib_channel_global c = h ∧
      Iccom_lib_Final s h fenv =
        some { retcode := ICCOM_ERR_PARAM, state := s
               events := [Event.lock_global, Event.unlock_global,
                          Event.lock_channel c, Event.unlock_channel c] } := by
  obtain ⟨h0, c, info', hreq, hc, hslot, -, hheap', -⟩ :=
    check_handle_ok_inv s h cr hr hok
  rw [hheap] at hheap'
  cases hheap'
  refine ⟨c, hc, hslot, ?_⟩
  have hg : ¬ (s.g_lib_channel_global c = 0) := by
    rw [hslot]; exact h0
  rw [hreq] at hr
  simp [Iccom_lib_Final, hr, Iccom_lib_Final_channel, hg, hheap, hcnt]

theorem registry_wf_state_ch2_open : registry_wf state_ch2_open := by
  unfold registry_wf
  decide

theorem counters_wf_state_ch2_open : counters_wf state_ch2_open := by
  intro p info hp
  by_cases h : p = 1000
  · subst h
    have : state_ch2_open.heap 1000 = some (init_info param_ch2 env_init_ok) := by
      decide
    rw [this] at hp
    cases hp
    decide
  · have hinit := Iccom_lib_Init_success initial_state param_ch2
      env_init_ok (by decide) (by decide) (by decide) (by decide)
      (by decide) (by decide)
    have : state_ch2_open.heap p = none := by
      unfold state_ch2_open
      rw [hinit]
      have h' : p ≠ env_init_ok.malloc_ret := h
      simp [Function.update_noteq h', initial_state]
    rw [this] at hp
    cases hp

set_option maxRecDepth 8192 in
theorem C8_send_counter_balance_witness :
    ∃ r, Iccom_lib_Send state_ch2_open (some ⟨1000, 3, 500⟩) ⟨3, 0⟩ = some r ∧
      r.state = state_ch2_open ∧
      r.events.filter is_write_or_store =
        [Event.store_send_req_cnt 1000 1, Event.write 3 500 3 3,
         Event.store_send_req_cnt 1000 0] := by
  obtain ⟨r, hr, hst, _⟩ :=
    C8_send_counter_balance state_ch2_open (some ⟨1000, 3, 500⟩) ⟨3, 0⟩
      registry_wf_state_ch2_open counters_wf_state_ch2_open
  refine ⟨r, hr, hst, ?_⟩
  have hev : ((Iccom_lib_Send state_ch2_open (some ⟨1000, 3, 500⟩)
      ⟨3, 0⟩).map (fun r => r.events.filter is_write_or_store)) =
      some [Event.store_send_req_cnt 1000 1, Event.write 3 500 3 3,
         Event.store_send_req_cnt 1000 0] := by decide
  rw [hr] at hev
  simpa using hev

set_option maxRecDepth 8192 in
theorem C9_unresolved_handle_witness :
    (Iccom_lib_Send ⟨initial_state.g_lib_channel_global, fun _ => none⟩
        (some ⟨1000, 3, 500⟩) ⟨3, 0⟩ =
      some { retcode := ICCOM_ERR_PARAM
             state := ⟨initial_state.g_lib_channel_global, fun _ => none⟩
             events := if (1000 : Ptr) = NULL then []
                       else [Event.lock_global, Event.unlock_global] } ∧
     Iccom_lib_Final ⟨initial_state.g_lib_channel_global, fun _ => none⟩
        1000 ⟨0⟩ =
      some { retcode := ICCOM_ERR_PARAM
             state := ⟨initial_state.g_lib_channel_global, fun _ => none⟩
             events := if (1000 : Ptr) = NULL then []
                       else [Event.lock_global, Event.unlock_global] }) ∧
    ∃ f, Iccom_lib_Final state_ch2_open 1000 ⟨0⟩ = some f ∧
      f.retcode = ICCOM_OK ∧
      Iccom_lib_Send f.state (some ⟨1000, 3, 500⟩) ⟨3, 0⟩ =
        some { retcode := ICCOM_ERR_PARAM, state := f.state
               events := [Event.lock_global, Event.unlock_global] } ∧
      Iccom_lib_Final f.state 1000 ⟨0⟩ =
        some { retcode := ICCOM_ERR_PARAM, state := f.state
               events := [Event.lock_global, Event.unlock_global] } :=
  ⟨C9_unresolved_handle.1 initial_state 1000 500 3 ⟨3, 0⟩ ⟨0⟩
      (Or.inr (fun _ _ (h : (0 : Nat) = 1000) => absurd h (by decide)))
      (by decide) (by decide) (fun _ => none),
   ⟨_, Option.eq_some_of_isSome (by decide), by decide,
    C9_unresolved_handle.2 initial_state param_ch2 env_init_ok ⟨0⟩ ⟨0⟩ ⟨3, 0⟩
      1000 500 3 _ (by decide) (by decide) (fun _ _ h => absurd rfl h)
      (Option.eq_some_of_isSome (by decide)) (by decide) (by decide)
      (by decide)⟩⟩

set_option maxRecDepth 8192 in
theorem C10_final_while_sending_witness :
    ∃ c, c < ICCOM_CHANNEL_MAX ∧
      state_ch2_sending.g_lib_channel_global c = 1000 ∧
      Iccom_lib_Final state_ch2_sending 1000 ⟨0⟩ =
        some { retcode := ICCOM_ERR_PARAM, state := state_ch2_sending
               events := [Event.lock_global, Event.unlock_global,
                          Event.lock_channel c, Event.unlock_channel c] } :=
  C10_final_while_sending state_ch2_sending 1000 ⟨0⟩ _
    { channel_no := 2, send_req_cnt := 1, recv_buf := 100, recv_cb := 200,
      fd := 3, recv_thread_id := 7 }
    (Option.eq_some_of_isSome (by decide)) (by decide) (by decide) (by decide)

/-- C11: the header of `Iccom_lib_Final` documents ICCOM_NG for a call made
while data is being sent; evaluated on a channel whose send request counter is
1, the function returns ICCOM_ERR_PARAM, which is not ICCOM_NG. -/
theorem C11_final_while_sending_retcode :
    (Iccom_lib_Final state_ch2_sending 1000 ⟨0⟩).map (fun r => r.retcode)
      = some ICCOM_ERR_PARAM ∧
    (Iccom_lib_Final state_ch2_sending 1000 ⟨0⟩).map (fun r => r.retcode)
      ≠ some ICCOM_NG := by
  constructor <;> decide

/-- C12: for every handle that resolves and whose send request counter is
zero, if the cancel-receive ioctl returns non-zero, `Iccom_lib_Final` returns
ICCOM_NG; its calls are the lock and unlock of the global mutex by the handle
check, the lock of the channel mutex, the ioctl and the unlock of the channel
mutex, so there is no join, no close and no free and the channel lock is
released before returning; the state is unchanged, so the block stays
registered in its slot. -/
theorem C12_final_ioctl_failure (s : LibState) (h : Ptr) (fenv : FinalEnv)
    (cr : CheckResult) (info : iccom_channel_info_t)
    (hr : iccom_lib_check_handle s h = some cr)
    (hok : cr.retcode = ICCOM_OK)
    (hheap : s.heap h = some info) (hcnt : info.send_req_cnt = 0)
    (hioctl : fenv.ioctl_ret ≠ 0) :
    ∃ c, c < ICCOM_CHANNEL_MAX ∧ s.g_lib_channel_global c = h ∧
      Iccom_lib_Final s h fenv =
        some { retcode := ICCOM_NG, state := s
               events := [Event.lock_global, Event.unlock_global,
                          Event.lock_channel c,
                          Event.ioctl info.fd ICCOM_IOC_CANCEL_RECEIVE
                            fenv.ioctl_ret,
                          Event.unlock_channel c] } := by
  obtain ⟨h0, c, info', hreq, hc, hslot, -, hheap', -⟩ :=
    check_handle_ok_inv s h cr hr hok
  rw [hheap] at hheap'
  cases hheap'
  refine ⟨c, hc, hslot, ?_⟩
  have hg : ¬ (s.g_lib_channel_global c = 0) := by
    rw [hslot]; exact h0
  rw [hreq] at hr
  simp [Iccom_lib_Final, hr, Iccom_lib_Final_channel, hg, hheap, hcnt, hioctl]

set_option maxRecDepth 8192 in
theorem C12_final_ioctl_failure_witness :
    ∃ c, c < ICCOM_CHANNEL_MAX ∧
      state_ch2_open.g_lib_channel_global c = 1000 ∧
      Iccom_lib_Final state_ch2_open 1000 ⟨-1⟩ =
        some { retcode := ICCOM_NG, state := state_ch2_open
               events := [Event.lock_global, Event.unlock_global,
                          Event.lock_channel c,
                          Event.ioctl 3 ICCOM_IOC_CANCEL_RECEIVE (-1),
                          Event.unlock_channel c] } :=
  C12_final_ioctl_failure state_ch2_open 1000 ⟨-1⟩ _
    { channel_no := 2, send_req_cnt := 0, recv_buf := 100, recv_cb := 200,
      fd := 3, recv_thread_id := 7 }
    (Option.eq_some_of_isSome (by decide)) (by decide) (by decide) (by decide)
    (by decide)

theorem to_uint32_of_nonneg (x : Int) (h0 : 0 ≤ x) (h1 : x < 4294967296) :
    to_uint32 x = x.toNat := by
  unfold to_uint32
  omega

/-- C13: for every sequence of answers of the blocking reads (each for at most
2048 bytes into the receive buffer of the channel), the receive thread calls
the callback exactly once for each read before the first cancelled one that
returned a count n >= 0 (n = 0 included), in order, with the channel number,
exactly n and the receive buffer, and never for a failed read; the reads it
performs are all the reads before the first cancelled one and that one, so a
read failing with another error is followed by the next read; and it leaves
its loop exactly when a read failed with ECANCELED. -/
theorem C13_recv_thread (info : iccom_channel_info_t) (rs : List ReadResult)
    (hread : ∀ r ∈ rs, r.read_size ≤ (ICCOM_BUF_MAX_SIZE : Int)) :
    (iccom_lib_recv_thread info rs).filter is_recv_cb =
      ((before_cancel rs).filter (fun r => decide (0 ≤ r.read_size))).map
        (fun r => RecvEvent.recv_cb info.recv_cb info.channel_no
          r.read_size.toNat info.recv_buf) ∧
    (iccom_lib_recv_thread info rs).filter is_read =
      (rs.take ((before_cancel rs).length + 1)).map
        (fun r => RecvEvent.read info.fd info.recv_buf ICCOM_BUF_MAX_SIZE
          r.read_size) ∧
    (RecvEvent.pthread_exit ∈ iccom_lib_recv_thread info rs ↔
      ∃ r ∈ rs, is_cancel r = true) ∧
    (∀ r ∈ before_cancel rs, r.read_size < 0 → r.errno ≠ ECANCELED) := by
  induction rs with
  | nil => simp [iccom_lib_recv_thread, before_cancel]
  | cons r rest ih =>
    have hrest : ∀ x ∈ rest, x.read_size ≤ (ICCOM_BUF_MAX_SIZE : Int) :=
      fun x hx => hread x (List.mem_cons_of_mem r hx)
    have hr : r.read_size ≤ (2048 : Int) := hread r (List.mem_cons_self r rest)
    obtain ⟨ih1, ih2, ih3, ih4⟩ := ih hrest
    unfold before_cancel at ih1 ih2 ih4 ⊢
    by_cases hnn : r.read_size ≥ 0
    · have hc : is_cancel r = false := by
        simp [is_cancel]; intro h; omega
      have hu := to_uint32_of_nonneg r.read_size hnn (by omega)
      have hnn' : 0 ≤ r.read_size := hnn
      simp [iccom_lib_recv_thread, hnn', hc, is_recv_cb, is_read, ih1, ih2,
        ih3, hu, List.takeWhile_cons]
      intro x hx hneg
      exact ih4 x hx hneg
    · have hneg : r.read_size < 0 := by omega
      have hnn' : ¬ (0 ≤ r.read_size) := hnn
      by_cases he : r.errno = ECANCELED
      · have hc : is_cancel r = true := by
          simp [is_cancel, hneg, he]
        simp [iccom_lib_recv_thread, hnn', he, hc, is_recv_cb, is_read,
          List.takeWhile_cons]
      · have hc : is_cancel r = false := by
          simp [is_cancel, he]
        simp [iccom_lib_recv_thread, hnn', he, hc, is_recv_cb, is_read, ih1,
          ih2, ih3, List.takeWhile_cons]
        intro x hx hneg
        exact ih4 x hx hneg

theorem C13_recv_thread_witness :
    (iccom_lib_recv_thread info_ch2 reads_example).filter is_recv_cb =
      [RecvEvent.recv_cb 200 2 3 100, RecvEvent.recv_cb 200 2 0 100] ∧
    (iccom_lib_recv_thread info_ch2 reads_example).filter is_read =
      [RecvEvent.read 3 100 2048 3, RecvEvent.read 3 100 2048 (-1),
       RecvEvent.read 3 100 2048 0, RecvEvent.read 3 100 2048 (-1)] ∧
    RecvEvent.pthread_exit ∈ iccom_lib_recv_thread info_ch2 reads_example :=
  ⟨(C13_recv_thread info_ch2 reads_example (by decide)).1.trans (by decide),
   (C13_recv_thread info_ch2 reads_example (by decide)).2.1.trans (by decide),
   by decide⟩

/-- The return code of `iccom_lib_check_handle` is ICCOM_OK or
ICCOM_ERR_PARAM, and nothing is stored through `channel_no` in the second
case. -/
theorem check_handle_codes (s : LibState) (h : Ptr) (r : CheckResult)
    (hr : iccom_lib_check_handle s h = some r) :
    r.retcode = ICCOM_OK ∨
      (r.retcode = ICCOM_ERR_PARAM ∧ r.channel_no = none) := by
  unfold iccom_lib_check_handle at hr
  by_cases h0 : h = NULL
  · rw [if_pos h0] at hr
    cases hr; exact Or.inr ⟨rfl, rfl⟩
  · rw [if_neg h0] at hr
    simp only [] at hr
    by_cases hge :
        check_handle_loop s.g_lib_channel_global h ICCOM_CHANNEL_MAX 0
          ≥ ICCOM_CHANNEL_MAX
    · rw [if_pos hge] at hr
      cases hr; exact Or.inr ⟨rfl, rfl⟩
    · rw [if_neg hge] at hr
      cases hheap : s.heap h with
      | none => simp [hheap] at hr
      | some info =>
        simp only [hheap] at hr
        split_ifs at hr
        · cases hr; exact Or.inr ⟨rfl, rfl⟩
        · cases hr; exact Or.inl rfl

/-- C14: for every registry state (whose slots point to allocated blocks) and
every handle h, `iccom_lib_check_handle` returns ICCOM_OK and outputs channel
number i if and only if h is non-null, i is the lowest slot index below 8
whose stored pointer is h, and the channel number recorded in the block of h
equals i; in every other case it returns ICCOM_ERR_PARAM and outputs nothing.
Whenever it returns ICCOM_OK the output channel number is below 8 and the slot
at that index stores h. -/
theorem C14_check_handle_iff (s : LibState) (h : Ptr) (hwf : registry_wf s) :
    ∃ r, iccom_lib_check_handle s h = some r ∧
      (∀ i, (r.retcode = ICCOM_OK ∧ r.channel_no = some i) ↔
        (h ≠ NULL ∧ i < ICCOM_CHANNEL_MAX ∧ s.g_lib_channel_global i = h ∧
          (∀ j, j < i → s.g_lib_channel_global j ≠ h) ∧
          ∃ info, s.heap h = some info ∧ to_uint32 info.channel_no = i)) ∧
      (r.retcode = ICCOM_OK ∨
        (r.retcode = ICCOM_ERR_PARAM ∧ r.channel_no = none)) ∧
      (r.retcode = ICCOM_OK →
        ∃ i, r.channel_no = some i ∧ i < ICCOM_CHANNEL_MAX ∧
          s.g_lib_channel_global i = h) := by
  obtain ⟨r, hr⟩ := check_handle_defined s h hwf
  refine ⟨r, hr, ?_, check_handle_codes s h r hr, ?_⟩
  · intro i
    constructor
    · rintro ⟨hok, hi⟩
      obtain ⟨h0, c, info, hreq, hc, hslot, hlow, hheap, hno⟩ :=
        check_handle_ok_inv s h r hr hok
      rw [hreq] at hi
      simp only [Option.some.injEq] at hi
      subst hi
      exact ⟨h0, hc, hslot, hlow, info, hheap, hno⟩
    · rintro ⟨h0, hi, hslot, hlow, info, hheap, hno⟩
      have hlive := check_handle_live s h i info h0 hi hslot hlow hheap hno
      rw [hlive] at hr
      cases hr
      exact ⟨rfl, rfl⟩
  · intro hok
    obtain ⟨-, c, info, hreq, hc, hslot, -, -, -⟩ :=
      check_handle_ok_inv s h r hr hok
    exact ⟨c, by rw [hreq], hc, hslot⟩

theorem C14_check_handle_iff_witness :
    ∃ r, iccom_lib_check_handle state_ch2_open 1000 = some r ∧
      r.retcode = ICCOM_OK ∧ r.channel_no = some 2 := by
  obtain ⟨r, hr, hiff, -, -⟩ :=
    C14_check_handle_iff state_ch2_open 1000 registry_wf_state_ch2_open
  exact ⟨r, hr, (hiff 2).mpr
    ⟨by decide, by decide, by decide, by decide, info_ch2, by decide,
      by decide⟩⟩

/-- The outcome of `Iccom_lib_Final` on a handle that resolves, by the value
of the send request counter and the answer of the ioctl. -/
theorem Iccom_lib_Final_resolved (s : LibState) (h : Ptr) (fenv : FinalEnv)
    (cr : CheckResult) (hr : iccom_lib_check_handle s h = some cr)
    (hok : cr.retcode = ICCOM_OK) :
    ∃ c info, c < ICCOM_CHANNEL_MAX ∧ h ≠ NULL ∧
      s.g_lib_channel_global c = h ∧ s.heap h = some info ∧
      to_uint32 info.channel_no = c ∧
      Iccom_lib_Final s h fenv =
        some (if info.send_req_cnt ≠ 0 then
            { retcode := ICCOM_ERR_PARAM, state := s
              events := [Event.lock_global, Event.unlock_global,
                         Event.lock_channel c, Event.unlock_channel c] }
          else if fenv.ioctl_ret ≠ 0 then
            { retcode := ICCOM_NG, state := s
              events := [Event.lock_global, Event.unlock_global,
                         Event.lock_channel c,
                         Event.ioctl info.fd ICCOM_IOC_CANCEL_RECEIVE
                           fenv.ioctl_ret,
                         Event.unlock_channel c] }
          else
            { retcode := ICCOM_OK
              state :=
                { g_lib_channel_global :=
                    Function.update s.g_lib_channel_global c NULL
                  heap := Function.update s.heap h none }
              events := [Event.lock_global, Event.unlock_global,
                         Event.lock_channel c,
                         Event.ioctl info.fd ICCOM_IOC_CANCEL_RECEIVE
                           fenv.ioctl_ret,
                         Event.pthread_join info.recv_thread_id,
                         Event.close info.fd,
                         Event.lock_global,
                         Event.free h,
                         Event.unlock_global,
                         Event.unlock_channel c,
                         Event.pthread_mutex_destroy c] }) := by
  obtain ⟨h0, c, info, hreq, hc, hslot, -, hheap, hno⟩ :=
    check_handle_ok_inv s h cr hr hok
  refine ⟨c, info, hc, h0, hslot, hheap, hno, ?_⟩
  have hg : ¬ (s.g_lib_channel_global c = 0) := by
    rw [hslot]; exact h0
  rw [hreq] at hr
  simp only [Iccom_lib_Final, hr, Iccom_lib_Final_channel]
  by_cases hcnt : info.send_req_cnt = 0
  · by_cases hio : fenv.ioctl_ret = 0
    · simp [hg, hheap, hcnt, hio]
    · simp [hg, hheap, hcnt, hio]
  · simp [hg, hheap, hcnt]

/-- The outcome of `Iccom_lib_Final` on a handle that does not resolve. -/
theorem Iccom_lib_Final_rejected (s : LibState) (h : Ptr) (fenv : FinalEnv)
    (cr : CheckResult) (hr : iccom_lib_check_handle s h = some cr)
    (hok : cr.retcode ≠ ICCOM_OK) :
    Iccom_lib_Final s h fenv =
      some { retcode := cr.retcode, state := s, events := cr.events } := by
  simp [Iccom_lib_Final, hr, hok]

/-- The outcome of `Iccom_lib_Send` with a valid buffer and size on a handle
that does not resolve. -/
theorem Iccom_lib_Send_rejected (s : LibState) (sp : Iccom_send_param)
    (senv : SendEnv) (cr : CheckResult)
    (hsize : sp.send_size ≤ ICCOM_BUF_MAX_SIZE) (hbuf : sp.send_buf ≠ NULL)
    (hr : iccom_lib_check_handle s sp.channel_handle = some cr)
    (hok : cr.retcode ≠ ICCOM_OK) :
    Iccom_lib_Send s (some sp) senv =
      some { retcode := cr.retcode, state := s, events := cr.events } := by
  have hs' : sp.send_size ≤ 2048 := hsize
  have hsz : ¬ (2048 < sp.send_size) := by omega
  simp [Iccom_lib_Send, hsz, hbuf, hr, hok]

/-- In a state satisfying `registry_inv` the slots point to allocated
blocks. -/
theorem registry_inv_wf (s : LibState) (hinv : registry_inv s) :
    registry_wf s := by
  intro i hi h0
  obtain ⟨info, hheap, -⟩ := hinv i hi h0
  rw [hheap]
  exact Option.some_ne_none info

/-- In a state satisfying `registry_inv` no block is stored in two slots. -/
theorem registry_inv_unique (s : LibState) (hinv : registry_inv s) (i j : Nat)
    (hi : i < ICCOM_CHANNEL_MAX) (hj : j < ICCOM_CHANNEL_MAX)
    (h0 : s.g_lib_channel_global i ≠ NULL)
    (heq : s.g_lib_channel_global i = s.g_lib_channel_global j) : i = j := by
  obtain ⟨info, hheap, hno⟩ := hinv i hi h0
  obtain ⟨info', hheap', hno'⟩ := hinv j hj (heq ▸ h0)
  rw [← heq, hheap] at hheap'
  cases hheap'
  rw [← hno, hno']

/-- Writing to a block that is not allocated keeps `registry_inv`. -/
theorem registry_inv_update_fresh (s : LibState) (p : Ptr)
    (v : Option iccom_channel_info_t) (hinv : registry_inv s)
    (hp : s.heap p = none) :
    registry_inv { g_lib_channel_global := s.g_lib_channel_global
                   heap := Function.update s.heap p v } := by
  intro i hi h0
  obtain ⟨info, hheap, hno⟩ := hinv i hi h0
  have hne : s.g_lib_channel_global i ≠ p := by
    intro h
    rw [h, hp] at hheap
    cases hheap
  exact ⟨info, by simp [Function.update_noteq hne, hheap], hno⟩

/-- Storing a freshly allocated block that records channel `c` in slot `c`
keeps `registry_inv`. -/
theorem registry_inv_publish (s : LibState) (p : Ptr) (c : Nat)
    (info : iccom_channel_info_t) (hinv : registry_inv s)
    (hp : s.heap p = none) (hno : to_uint32 info.channel_no = c) :
    registry_inv
      { g_lib_channel_global := Function.update s.g_lib_channel_global c p
        heap := Function.update s.heap p (some info) } := by
  intro i hi h0
  by_cases hic : i = c
  · subst hic
    refine ⟨info, ?_, hno⟩
    show Function.update s.heap p (some info)
      (Function.update s.g_lib_channel_global i p i) = some info
    rw [Function.update_same, Function.update_same]
  · have h0' : s.g_lib_channel_global i ≠ NULL := by
      simpa [Function.update_noteq hic] using h0
    obtain ⟨info', hheap, hno'⟩ := hinv i hi h0'
    have hne : s.g_lib_channel_global i ≠ p := by
      intro h
      rw [h, hp] at hheap
      cases hheap
    refine ⟨info', ?_, hno'⟩
    show Function.update s.heap p (some info)
      (Function.update s.g_lib_channel_global c p i) = some info'
    rw [Function.update_noteq hic, Function.update_noteq hne]
    exact hheap

/-- `Iccom_lib_Init` keeps `registry_inv` when `malloc` keeps its contract. -/
theorem registry_inv_init (s : LibState) (pIccomInit : Option Iccom_init_param)
    (env : InitEnv) (hinv : registry_inv s)
    (hm : malloc_contract s env.malloc_ret) :
    registry_inv (Iccom_lib_Init s pIccomInit env).state := by
  cases pIccomInit with
  | none => simpa [Iccom_lib_Init, Iccom_lib_Init_abnormal] using hinv
  | some ip =>
    unfold Iccom_lib_Init
    simp only []
    split_ifs with h1 h2 h3 h4 h5
    · simpa [Iccom_lib_Init_abnormal] using hinv
    · simpa [Iccom_lib_Init_abnormal] using hinv
    · simpa [Iccom_lib_Init_abnormal] using hinv
    · simpa [Iccom_lib_Init_abnormal] using hinv
    · have hp : s.heap env.malloc_ret = none := by
        rcases hm with hm | hm
        · exact absurd hm h4
        · exact hm
      have := registry_inv_update_fresh s env.malloc_ret none hinv hp
      simpa [Iccom_lib_Init_abnormal, h4] using this
    · have hp : s.heap env.malloc_ret = none := by
        rcases hm with hm | hm
        · exact absurd hm h4
        · exact hm
      exact registry_inv_publish s env.malloc_ret (to_uint32 ip.channel_no) _
        hinv hp rfl

/-- `Iccom_lib_Send` keeps `registry_inv`. -/
theorem registry_inv_send (s : LibState)
    (pIccomSend : Option Iccom_send_param) (senv : SendEnv) (r : CallResult)
    (hinv : registry_inv s) (hr : Iccom_lib_Send s pIccomSend senv = some r) :
    registry_inv r.state := by
  cases pIccomSend with
  | none =>
    simp [Iccom_lib_Send] at hr
    rw [← hr]; exact hinv
  | some sp =>
    by_cases hbad : sp.send_size > ICCOM_BUF_MAX_SIZE ∨ sp.send_buf = NULL
    · simp [Iccom_lib_Send, hbad] at hr
      rw [← hr]; exact hinv
    · push_neg at hbad
      obtain ⟨hs, hb⟩ := hbad
      obtain ⟨cr, hchk⟩ :=
        check_handle_defined s sp.channel_handle (registry_inv_wf s hinv)
      by_cases hok : cr.retcode = ICCOM_OK
      · obtain ⟨c, info, -, -, hheap, heq⟩ :=
          Iccom_lib_Send_resolved s sp senv cr hs hb hchk hok
        rw [heq] at hr
        cases hr
        intro i hi h0
        obtain ⟨info', hheap', hno'⟩ := hinv i hi h0
        by_cases hih : s.g_lib_channel_global i = sp.channel_handle
        · rw [hih, hheap] at hheap'
          cases hheap'
          refine ⟨{ info with
            send_req_cnt := uint32_dec (uint32_inc info.send_req_cnt) },
            ?_, hno'⟩
          show Function.update s.heap sp.channel_handle _
            (s.g_lib_channel_global i) = _
          rw [hih, Function.update_same]
        · refine ⟨info', ?_, hno'⟩
          show Function.update s.heap sp.channel_handle _
            (s.g_lib_channel_global i) = _
          rw [Function.update_noteq hih]
          exact hheap'
      · rw [Iccom_lib_Send_rejected s sp senv cr hs hb hchk hok] at hr
        cases hr
        exact hinv

/-- `Iccom_lib_Final` keeps `registry_inv`. -/
theorem registry_inv_final (s : LibState) (h : Ptr) (fenv : FinalEnv)
    (r : CallResult) (hinv : registry_inv s)
    (hr : Iccom_lib_Final s h fenv = some r) : registry_inv r.state := by
  obtain ⟨cr, hchk⟩ := check_handle_defined s h (registry_inv_wf s hinv)
  by_cases hok : cr.retcode = ICCOM_OK
  · obtain ⟨c, info, hc, h0, hslot, hheap, hno, heq⟩ :=
      Iccom_lib_Final_resolved s h fenv cr hchk hok
    rw [heq] at hr
    simp only [Option.some.injEq] at hr
    subst hr
    split_ifs
    · exact hinv
    · exact hinv
    · intro i hi hi0
      by_cases hic : i = c
      · subst hic
        simp at hi0
      · have hi0' : s.g_lib_channel_global i ≠ NULL := by
          simpa [Function.update_noteq hic] using hi0
        obtain ⟨info', hheap', hno'⟩ := hinv i hi hi0'
        have hne : s.g_lib_channel_global i ≠ h := by
          intro hih
          exact hic (registry_inv_unique s hinv i c hi hc hi0'
            (by rw [hih, hslot]))
        refine ⟨info', ?_, hno'⟩
        show Function.update s.heap h none
          (Function.update s.g_lib_channel_global c NULL i) = some info'
        rw [Function.update_noteq hic, Function.update_noteq hne]
        exact hheap'
  · rw [Iccom_lib_Final_rejected s h fenv cr hchk hok] at hr
    cases hr
    exact hinv

/-- Every reachable state satisfies `registry_inv`. -/
theorem registry_inv_reachable (s : LibState) (hs : Reachable s) :
    registry_inv s := by
  induction hs with
  | start =>
    intro i _ h0
    exact absurd rfl h0
  | init s p env _ hm ih => exact registry_inv_init s p env ih hm
  | send s p env r _ hr ih => exact registry_inv_send s p env r ih hr
  | final s h env r _ hr ih => exact registry_inv_final s h env r ih hr

/-- Where the slots point to allocated blocks, `Iccom_lib_Send` reads no
unallocated block. -/
theorem Iccom_lib_Send_defined (s : LibState)
    (pIccomSend : Option Iccom_send_param) (senv : SendEnv)
    (hwf : registry_wf s) : ∃ r, Iccom_lib_Send s pIccomSend senv = some r := by
  cases pIccomSend with
  | none => exact ⟨_, rfl⟩
  | some sp =>
    by_cases hbad : sp.send_size > ICCOM_BUF_MAX_SIZE ∨ sp.send_buf = NULL
    · exact ⟨{ retcode := ICCOM_ERR_PARAM, state := s, events := [] },
        by simp [Iccom_lib_Send, hbad]⟩
    · push_neg at hbad
      obtain ⟨hs, hb⟩ := hbad
      obtain ⟨cr, hchk⟩ := check_handle_defined s sp.channel_handle hwf
      by_cases hok : cr.retcode = ICCOM_OK
      · obtain ⟨c, info, -, -, -, heq⟩ :=
          Iccom_lib_Send_resolved s sp senv cr hs hb hchk hok
        exact ⟨_, heq⟩
      · exact ⟨_, Iccom_lib_Send_rejected s sp senv cr hs hb hchk hok⟩

/-- Where the slots point to allocated blocks, `Iccom_lib_Final` reads no
unallocated block. -/
theorem Iccom_lib_Final_defined (s : LibState) (h : Ptr) (fenv : FinalEnv)
    (hwf : registry_wf s) : ∃ r, Iccom_lib_Final s h fenv = some r := by
  obtain ⟨cr, hchk⟩ := check_handle_defined s h hwf
  by_cases hok : cr.retcode = ICCOM_OK
  · obtain ⟨c, info, -, -, -, -, -, heq⟩ :=
      Iccom_lib_Final_resolved s h fenv cr hchk hok
    exact ⟨_, heq⟩
  · exact ⟨_, Iccom_lib_Final_rejected s h fenv cr hchk hok⟩

/-- C15: in every state reachable from the initial all-empty registry by any
sequence of `Iccom_lib_Init`, `Iccom_lib_Send` and `Iccom_lib_Final` calls with
any outcomes, every non-empty slot i points to an allocated block whose
recorded channel number is i; hence no block is stored in two slots and every
stored handle resolves to its slot; and from such a state Send and Final
always return. -/
theorem C15_registry_invariant (s : LibState) (hs : Reachable s) :
    (∀ i, i < ICCOM_CHANNEL_MAX → s.g_lib_channel_global i ≠ NULL →
      ∃ info, s.heap (s.g_lib_channel_global i) = some info ∧
        to_uint32 info.channel_no = i) ∧
    (∀ i j, i < ICCOM_CHANNEL_MAX → j < ICCOM_CHANNEL_MAX →
      s.g_lib_channel_global i ≠ NULL →
      s.g_lib_channel_global i = s.g_lib_channel_global j → i = j) ∧
    (∀ i, i < ICCOM_CHANNEL_MAX → s.g_lib_channel_global i ≠ NULL →
      iccom_lib_check_handle s (s.g_lib_channel_global i) =
        some { retcode := ICCOM_OK, channel_no := some i
               events := [Event.lock_global, Event.unlock_global] }) ∧
    (∀ pIccomSend senv, ∃ r, Iccom_lib_Send s pIccomSend senv = some r) ∧
    (∀ h fenv, ∃ r, Iccom_lib_Final s h fenv = some r) := by
  have hinv := registry_inv_reachable s hs
  have hwf := registry_inv_wf s hinv
  refine ⟨hinv, fun i j hi hj h0 heq =>
    registry_inv_unique s hinv i j hi hj h0 heq, ?_,
    fun p senv => Iccom_lib_Send_defined s p senv hwf,
    fun h fenv => Iccom_lib_Final_defined s h fenv hwf⟩
  intro i hi h0
  obtain ⟨info, hheap, hno⟩ := hinv i hi h0
  apply check_handle_live s _ i info h0 hi rfl _ hheap hno
  intro j hj heq
  have hj8 : j < ICCOM_CHANNEL_MAX := Nat.lt_trans hj hi
  have := registry_inv_unique s hinv i j hi hj8 h0 heq.symm
  omega

theorem C15_registry_invariant_witness :
    ∃ info, state_ch2_open.heap (state_ch2_open.g_lib_channel_global 2)
        = some info ∧ to_uint32 info.channel_no = 2 :=
  (C15_registry_invariant state_ch2_open
    (Reachable.init initial_state (some param_ch2) env_init_ok
      Reachable.start (Or.inr rfl))).1 2 (by decide) (by decide)

/-- When `pthread_create` was called and failed, every earlier step of the
call had succeeded. -/
theorem recv_thread_start_failed_cond (s : LibState)
    (pIccomInit : Option Iccom_init_param) (env : InitEnv)
    (h : recv_thread_start_failed (Iccom_lib_Init s pIccomInit env)) :
    ∃ ip, pIccomInit = some ip ∧ ip.recv_buf ≠ NULL ∧ ip.recv_cb ≠ NULL ∧
      to_uint32 ip.channel_no < ICCOM_CHANNEL_MAX ∧ 0 ≤ env.open_ret ∧
      env.malloc_ret ≠ NULL ∧ env.pthread_create_ret ≠ 0 := by
  obtain ⟨p, ret, hret, hp⟩ := h
  cases pIccomInit with
  | none => simp [Iccom_lib_Init, Iccom_lib_Init_abnormal] at hp
  | some ip =>
    refine ⟨ip, rfl, ?_⟩
    unfold Iccom_lib_Init at hp
    simp only [] at hp
    split_ifs at hp with h1 h2 h3 h4 h5
    · simp [Iccom_lib_Init_abnormal] at hp
    · simp [Iccom_lib_Init_abnormal] at hp
    · simp [Iccom_lib_Init_abnormal, h3] at hp
    · simp [Iccom_lib_Init_abnormal, h4] at hp
    · push_neg at h1
      exact ⟨h1.1, h1.2.1, h1.2.2, by omega, h4, h5⟩
    · simp at hp
      exact absurd (hp.2.trans (not_not.mp h5)) hret

/-- C16: when the receive-task start fails in `Iccom_lib_Init`, the
result is ICCOM_NG; the resources were acquired in the order transport open,
allocation, channel-mutex initialisation, and the rollback releases all three
in the order close of the descriptor, destruction of the channel mutex, free
of the allocation. -/
theorem C16_rollback_order (s : LibState)
    (pIccomInit : Option Iccom_init_param) (env : InitEnv)
    (hfail : recv_thread_start_failed (Iccom_lib_Init s pIccomInit env)) :
    ∃ ip, pIccomInit = some ip ∧
      (Iccom_lib_Init s pIccomInit env).retcode = ICCOM_NG ∧
      (Iccom_lib_Init s pIccomInit env).events.filter is_acquire =
        [Event.open_dev (to_uint32 ip.channel_no) env.open_ret,
         Event.malloc env.malloc_ret,
         Event.pthread_mutex_init (to_uint32 ip.channel_no)] ∧
      (Iccom_lib_Init s pIccomInit env).events.filter is_release =
        [Event.close env.open_ret,
         Event.pthread_mutex_destroy (to_uint32 ip.channel_no),
         Event.free env.malloc_ret] ∧
      (Iccom_lib_Init s pIccomInit env).events =
        [Event.open_dev (to_uint32 ip.channel_no) env.open_ret,
         Event.malloc env.malloc_ret,
         Event.pthread_mutex_init (to_uint32 ip.channel_no),
         Event.pthread_create env.malloc_ret env.pthread_create_ret,
         Event.close env.open_ret,
         Event.pthread_mutex_destroy (to_uint32 ip.channel_no),
         Event.free env.malloc_ret] := by
  obtain ⟨ip, hip, hb, hcb, hch, hopen, hmalloc, hcreate⟩ :=
    recv_thread_start_failed_cond s pIccomInit env hfail
  subst hip
  refine ⟨ip, rfl, ?_⟩
  have h8 : ¬ (8 ≤ to_uint32 ip.channel_no) := by simpa using hch
  have hfd : ¬ (env.open_ret < 0) := by omega
  simp [Iccom_lib_Init, Iccom_lib_Init_abnormal, hb, hcb, h8,
    snprintf_ret_nonneg, hfd, hopen, hmalloc, hcreate, is_acquire, is_release]

theorem C16_rollback_order_witness :
    ∃ ip, some param_ch2 = some ip ∧
      (Iccom_lib_Init initial_state (some param_ch2)
        env_create_fails).retcode = ICCOM_NG ∧
      (Iccom_lib_Init initial_state (some param_ch2)
        env_create_fails).events.filter is_acquire =
        [Event.open_dev (to_uint32 ip.channel_no) env_create_fails.open_ret,
         Event.malloc env_create_fails.malloc_ret,
         Event.pthread_mutex_init (to_uint32 ip.channel_no)] ∧
      (Iccom_lib_Init initial_state (some param_ch2)
        env_create_fails).events.filter is_release =
        [Event.close env_create_fails.open_ret,
         Event.pthread_mutex_destroy (to_uint32 ip.channel_no),
         Event.free env_create_fails.malloc_ret] ∧
      (Iccom_lib_Init initial_state (some param_ch2)
        env_create_fails).events =
        [Event.open_dev (to_uint32 ip.channel_no) env_create_fails.open_ret,
         Event.malloc env_create_fails.malloc_ret,
         Event.pthread_mutex_init (to_uint32 ip.channel_no),
         Event.pthread_create env_create_fails.malloc_ret
           env_create_fails.pthread_create_ret,
         Event.close env_create_fails.open_ret,
         Event.pthread_mutex_destroy (to_uint32 ip.channel_no),
         Event.free env_create_fails.malloc_ret] :=
  C16_rollback_order initial_state (some param_ch2) env_create_fails
    ⟨1000, 11, by decide, by decide⟩

/-- C16, release order on a concrete call: with the open (descriptor 3), the
allocation (block 1000) and the mutex initialisation done for channel 2 and `pthread_create`
failing, the releases are not in the reverse of the acquisition order (mutex
destruction, free, close): the descriptor is closed first. -/
theorem C16_rollback_order_counterexample :
    recv_thread_start_failed
      (Iccom_lib_Init initial_state (some param_ch2) env_create_fails) ∧
    (Iccom_lib_Init initial_state (some param_ch2)
      env_create_fails).events.filter is_release ≠
      [Event.pthread_mutex_destroy 2, Event.free 1000, Event.close 3] ∧
    (Iccom_lib_Init initial_state (some param_ch2)
      env_create_fails).events.filter is_release =
      [Event.close 3, Event.pthread_mutex_destroy 2, Event.free 1000] :=
  ⟨⟨1000, 11, by decide, by decide⟩, by decide, by decide⟩

/-- C17: in `Iccom_lib_Send` and in `Iccom_lib_Final`, the check made
under the channel lock once the handle has resolved tests only whether the
slot is empty.  For every state observed at that point whose slot is empty the
operation returns ICCOM_ERR_PARAM, its calls are the lock and the unlock of the
channel mutex (no transport operation, no store to the counter) and the state
is unchanged.  For every state whose slot is non-empty, whatever block it
holds, the check passes: Send raises the counter of the handle and issues the
write, and Final with a zero counter and a successful ioctl tears the channel
down and empties the slot. -/
theorem C17_check_under_channel_lock (s : LibState) (sp : Iccom_send_param)
    (c : Nat) (senv : SendEnv) (fenv : FinalEnv) (events : List Event) :
    (s.g_lib_channel_global c = NULL →
      Iccom_lib_Send_channel s sp c senv events =
        some { retcode := ICCOM_ERR_PARAM, state := s
               events := events ++
                 [Event.lock_channel c, Event.unlock_channel c] } ∧
      Iccom_lib_Final_channel s sp.channel_handle c fenv events =
        some { retcode := ICCOM_ERR_PARAM, state := s
               events := events ++
                 [Event.lock_channel c, Event.unlock_channel c] }) ∧
    (s.g_lib_channel_global c ≠ NULL →
      ∀ info, s.heap sp.channel_handle = some info →
      (∃ r, Iccom_lib_Send_channel s sp c senv events = some r ∧
        r.retcode =
          send_write_retcode sp.send_size senv.write_ret senv.write_errno ∧
        r.events.filter is_write_or_store =
          events.filter is_write_or_store ++
          [Event.store_send_req_cnt sp.channel_handle
             (uint32_inc info.send_req_cnt),
           Event.write info.fd sp.send_buf sp.send_size senv.write_ret,
           Event.store_send_req_cnt sp.channel_handle
             (uint32_dec (uint32_inc info.send_req_cnt))]) ∧
      (info.send_req_cnt = 0 → fenv.ioctl_ret = 0 →
        ∃ r, Iccom_lib_Final_channel s sp.channel_handle c fenv events
            = some r ∧
          r.retcode = ICCOM_OK ∧ r.state.g_lib_channel_global c = NULL ∧
          Event.close info.fd ∈ r.events)) := by
  constructor
  · intro h0
    simp [Iccom_lib_Send_channel, Iccom_lib_Final_channel, h0]
  · intro h0 info hheap
    have hg : ¬ (s.g_lib_channel_global c = 0) := h0
    constructor
    · simp [Iccom_lib_Send_channel, hg, hheap, is_write_or_store]
    · intro hcnt hio
      simp [Iccom_lib_Final_channel, hg, hheap, hcnt, hio]

theorem C17_check_under_channel_lock_witness :
    Iccom_lib_Send_channel initial_state ⟨1000, 3, 500⟩ 2 ⟨3, 0⟩
        [Event.lock_global, Event.unlock_global] =
      some { retcode := ICCOM_ERR_PARAM, state := initial_state
             events := [Event.lock_global, Event.unlock_global] ++
               [Event.lock_channel 2, Event.unlock_channel 2] } ∧
    Iccom_lib_Final_channel initial_state
        (⟨1000, 3, 500⟩ : Iccom_send_param).channel_handle 2 ⟨0⟩
        [Event.lock_global, Event.unlock_global] =
      some { retcode := ICCOM_ERR_PARAM, state := initial_state
             events := [Event.lock_global, Event.unlock_global] ++
               [Event.lock_channel 2, Event.unlock_channel 2] } :=
  (C17_check_under_channel_lock initial_state ⟨1000, 3, 500⟩ 2 ⟨3, 0⟩ ⟨0⟩
    [Event.lock_global, Event.unlock_global]).1 rfl

set_option maxRecDepth 8192 in
/-- C17, a slot holding another block: handle 1000 resolved to channel 2, and
the slot observed under the channel lock holds the different block 2000 (a second Init
of channel 2 took place in between).  Send then returns ICCOM_OK after raising
the counter of block 1000 and writing on its descriptor 3, and Final returns
ICCOM_OK after closing descriptor 3 and emptying slot 2; neither returns
ICCOM_ERR_PARAM. -/
theorem C17_check_under_channel_lock_counterexample :
    state_ch2_replaced.g_lib_channel_global 2 = 2000 ∧
    (Iccom_lib_Send_channel state_ch2_replaced ⟨1000, 3, 500⟩ 2 ⟨3, 0⟩
        [Event.lock_global, Event.unlock_global]).map
        (fun r => (r.retcode, r.events)) =
      some (ICCOM_OK,
        [Event.lock_global, Event.unlock_global, Event.lock_channel 2,
         Event.store_send_req_cnt 1000 1, Event.unlock_channel 2,
         Event.write 3 500 3 3, Event.lock_channel 2,
         Event.store_send_req_cnt 1000 0, Event.unlock_channel 2]) ∧
    (Iccom_lib_Final_channel state_ch2_replaced 1000 2 ⟨0⟩
        [Event.lock_global, Event.unlock_global]).map
        (fun r => (r.retcode, r.events, r.state.g_lib_channel_global 2)) =
      some (ICCOM_OK,
        [Event.lock_global, Event.unlock_global, Event.lock_channel 2,
         Event.ioctl 3 ICCOM_IOC_CANCEL_RECEIVE 0, Event.pthread_join 7,
         Event.close 3, Event.lock_global, Event.free 1000,
         Event.unlock_global, Event.unlock_channel 2,
         Event.pthread_mutex_destroy 2], NULL) := by
  refine ⟨by decide, by decide, by decide⟩

/-- The calls of `Iccom_lib_Send_channel`: either the lock and unlock of the
channel mutex, or lock, store, unlock, write, lock, store, unlock. -/
theorem Iccom_lib_Send_channel_events (s : LibState) (sp : Iccom_send_param)
    (c : Nat) (senv : SendEnv) (events : List Event) (r : CallResult)
    (hr : Iccom_lib_Send_channel s sp c senv events = some r) :
    (r.retcode = ICCOM_ERR_PARAM ∧ r.state = s ∧
      r.events = events ++ [Event.lock_channel c, Event.unlock_channel c]) ∨
    ∃ v1 fd v2,
      r.events = events ++
        [Event.lock_channel c,
         Event.store_send_req_cnt sp.channel_handle v1,
         Event.unlock_channel c,
         Event.write fd sp.send_buf sp.send_size senv.write_ret,
         Event.lock_channel c,
         Event.store_send_req_cnt sp.channel_handle v2,
         Event.unlock_channel c] := by
  unfold Iccom_lib_Send_channel at hr
  simp only [] at hr
  by_cases h0 : s.g_lib_channel_global c = NULL
  · rw [if_pos h0] at hr
    cases hr
    exact Or.inl ⟨rfl, rfl, rfl⟩
  · rw [if_neg h0] at hr
    cases hheap : s.heap sp.channel_handle with
    | none => simp [hheap] at hr
    | some info =>
      simp only [hheap, Option.some.injEq] at hr
      subst hr
      exact Or.inr ⟨_, _, _, rfl⟩

/-- The calls of `Iccom_lib_Final_channel`, by return code. -/
theorem Iccom_lib_Final_channel_events (s : LibState) (h : Ptr) (c : Nat)
    (fenv : FinalEnv) (events : List Event) (r : CallResult)
    (hr : Iccom_lib_Final_channel s h c fenv events = some r) :
    (r.retcode = ICCOM_ERR_PARAM ∧ r.state = s ∧
      r.events = events ++ [Event.lock_channel c, Event.unlock_channel c]) ∨
    (r.retcode = ICCOM_NG ∧ r.state = s ∧ ∃ fd ret,
      r.events = events ++
        [Event.lock_channel c, Event.ioctl fd ICCOM_IOC_CANCEL_RECEIVE ret,
         Event.unlock_channel c]) ∨
    (r.retcode = ICCOM_OK ∧ ∃ fd ret tid,
      r.events = events ++
        [Event.lock_channel c, Event.ioctl fd ICCOM_IOC_CANCEL_RECEIVE ret,
         Event.pthread_join tid, Event.close fd, Event.lock_global,
         Event.free h, Event.unlock_global, Event.unlock_channel c,
         Event.pthread_mutex_destroy c]) := by
  unfold Iccom_lib_Final_channel at hr
  simp only [] at hr
  by_cases h0 : s.g_lib_channel_global c = NULL
  · rw [if_pos h0] at hr
    cases hr
    exact Or.inl ⟨rfl, rfl, by simp⟩
  · rw [if_neg h0] at hr
    cases hheap : s.heap h with
    | none => simp [hheap] at hr
    | some info =>
      simp only [hheap] at hr
      by_cases hcnt : info.send_req_cnt ≠ 0
      · rw [if_pos hcnt] at hr
        cases hr
        exact Or.inl ⟨rfl, rfl, by simp⟩
      · rw [if_neg hcnt] at hr
        by_cases hio : fenv.ioctl_ret ≠ 0
        · rw [if_pos hio] at hr
          cases hr
          exact Or.inr (Or.inl ⟨rfl, rfl, info.fd, fenv.ioctl_ret, by simp⟩)
        · rw [if_neg hio] at hr
          cases hr
          exact Or.inr (Or.inr ⟨rfl, info.fd, fenv.ioctl_ret,
            info.recv_thread_id, by simp⟩)

/-- A returning `Iccom_lib_Send` made no call, or only those of the handle
check, or those of the handle check followed by `Iccom_lib_Send_channel`. -/
theorem Iccom_lib_Send_paths (s : LibState)
    (pIccomSend : Option Iccom_send_param) (senv : SendEnv) (r : CallResult)
    (hr : Iccom_lib_Send s pIccomSend senv = some r) :
    (r.retcode = ICCOM_ERR_PARAM ∧ r.state = s ∧
      (r.events = [] ∨ r.events = [Event.lock_global, Event.unlock_global])) ∨
    ∃ sp c, pIccomSend = some sp ∧
      Iccom_lib_Send_channel s sp c senv
        [Event.lock_global, Event.unlock_global] = some r := by
  cases pIccomSend with
  | none =>
    simp [Iccom_lib_Send] at hr
    subst hr
    exact Or.inl ⟨rfl, rfl, Or.inl rfl⟩
  | some sp =>
    by_cases hbad : sp.send_size > ICCOM_BUF_MAX_SIZE ∨ sp.send_buf = NULL
    · simp [Iccom_lib_Send, hbad] at hr
      subst hr
      exact Or.inl ⟨rfl, rfl, Or.inl rfl⟩
    · have hbad' := hbad
      push_neg at hbad'
      obtain ⟨hs, hb⟩ := hbad'
      cases hchk : iccom_lib_check_handle s sp.channel_handle with
      | none => simp [Iccom_lib_Send, hbad, hchk] at hr
      | some cr =>
        by_cases hok : cr.retcode = ICCOM_OK
        · obtain ⟨-, c, info, hreq, -⟩ :=
            check_handle_ok_inv s sp.channel_handle cr hchk hok
          subst hreq
          refine Or.inr ⟨sp, c, rfl, ?_⟩
          simpa [Iccom_lib_Send, hbad, hchk] using hr
        · rw [Iccom_lib_Send_rejected s sp senv cr hs hb hchk hok] at hr
          cases hr
          rcases check_handle_codes s sp.channel_handle cr hchk with h1 | h1
          · exact absurd h1 hok
          · exact Or.inl ⟨h1.1, rfl,
              check_handle_events s sp.channel_handle cr hchk⟩

/-- A returning `Iccom_lib_Final` made only the calls of the handle check, or
those of the handle check followed by `Iccom_lib_Final_channel`. -/
theorem Iccom_lib_Final_paths (s : LibState) (h : Ptr) (fenv : FinalEnv)
    (r : CallResult) (hr : Iccom_lib_Final s h fenv = some r) :
    (r.retcode = ICCOM_ERR_PARAM ∧ r.state = s ∧
      (r.events = [] ∨ r.events = [Event.lock_global, Event.unlock_global])) ∨
    ∃ c, Iccom_lib_Final_channel s h c fenv
        [Event.lock_global, Event.unlock_global] = some r := by
  cases hchk : iccom_lib_check_handle s h with
  | none => simp [Iccom_lib_Final, hchk] at hr
  | some cr =>
    by_cases hok : cr.retcode = ICCOM_OK
    · obtain ⟨-, c, info, hreq, -⟩ := check_handle_ok_inv s h cr hchk hok
      subst hreq
      refine Or.inr ⟨c, ?_⟩
      simpa [Iccom_lib_Final, hchk] using hr
    · rw [Iccom_lib_Final_rejected s h fenv cr hchk hok] at hr
      cases hr
      rcases check_handle_codes s h cr hchk with h1 | h1
      · exact absurd h1 hok
      · exact Or.inl ⟨h1.1, rfl, check_handle_events s h cr hchk⟩

/-- The calls of `Iccom_lib_Init`, path by path. -/
theorem Iccom_lib_Init_events (s : LibState)
    (pIccomInit : Option Iccom_init_param) (env : InitEnv) :
    (Iccom_lib_Init s pIccomInit env).events = [] ∨
    (∃ c fd, (Iccom_lib_Init s pIccomInit env).events
      = [Event.open_dev c fd]) ∨
    (∃ c fd, (Iccom_lib_Init s pIccomInit env).events
      = [Event.open_dev c fd, Event.malloc NULL, Event.close fd]) ∨
    (∃ c fd p ret, (Iccom_lib_Init s pIccomInit env).events
      = [Event.open_dev c fd, Event.malloc p, Event.pthread_mutex_init c,
         Event.pthread_create p ret, Event.close fd,
         Event.pthread_mutex_destroy c, Event.free p]) ∨
    (∃ c fd p, (Iccom_lib_Init s pIccomInit env).events
      = [Event.open_dev c fd, Event.malloc p, Event.pthread_mutex_init c,
         Event.pthread_create p 0, Event.lock_global,
         Event.unlock_global]) := by
  cases pIccomInit with
  | none => exact Or.inl (by simp [Iccom_lib_Init, Iccom_lib_Init_abnormal])
  | some ip =>
    unfold Iccom_lib_Init
    simp only []
    split_ifs with h1 h2 h3 h4 h5
    · exact Or.inl (by simp [Iccom_lib_Init_abnormal])
    · exact Or.inl (by simp [Iccom_lib_Init_abnormal])
    · have h3' : ¬ (0 ≤ env.open_ret) := by omega
      exact Or.inr (Or.inl ⟨to_uint32 ip.channel_no, env.open_ret,
        by simp [Iccom_lib_Init_abnormal, h3']⟩)
    · have h3' : 0 ≤ env.open_ret := by omega
      exact Or.inr (Or.inr (Or.inl ⟨to_uint32 ip.channel_no, env.open_ret,
        by simp [Iccom_lib_Init_abnormal, h3', h4]⟩))
    · have h3' : 0 ≤ env.open_ret := by omega
      exact Or.inr (Or.inr (Or.inr (Or.inl ⟨to_uint32 ip.channel_no,
        env.open_ret, env.malloc_ret, env.pthread_create_ret,
        by simp [Iccom_lib_Init_abnormal, h3', h4]⟩)))
    · have h5' : env.pthread_create_ret = 0 := not_not.mp h5
      exact Or.inr (Or.inr (Or.inr (Or.inr ⟨to_uint32 ip.channel_no,
        env.open_ret, env.malloc_ret, by simp [h5']⟩)))

/-- C18: no call of `Iccom_lib_Init` or `Iccom_lib_Send` ever holds
the global registry mutex and a channel mutex at the same time, and in no call
of Init, Send or Final is a channel mutex locked while the global mutex is
held (the global mutex taken by the handle check is released before the
channel mutex is locked).  `Iccom_lib_Final` holds both exactly on its
successful path, where it locks the global mutex while holding the channel
mutex and unlocks it before unlocking the channel mutex: its lock events are
then global lock, global unlock, channel lock, global lock, global unlock,
channel unlock. -/
theorem C18_lock_nesting (s : LibState) :
    (∀ pIccomInit env,
      holds_both no_locks (Iccom_lib_Init s pIccomInit env).events = false ∧
      channel_locked_under_global no_locks
        (Iccom_lib_Init s pIccomInit env).events = false) ∧
    (∀ pIccomSend senv r, Iccom_lib_Send s pIccomSend senv = some r →
      holds_both no_locks r.events = false ∧
      channel_locked_under_global no_locks r.events = false) ∧
    (∀ h fenv r, Iccom_lib_Final s h fenv = some r →
      channel_locked_under_global no_locks r.events = false ∧
      (holds_both no_locks r.events = true ↔ r.retcode = ICCOM_OK) ∧
      (global_locked_under_channel no_locks r.events = true ↔
        r.retcode = ICCOM_OK) ∧
      (r.retcode = ICCOM_OK → ∃ c,
        r.events.filter is_lock_event =
          [Event.lock_global, Event.unlock_global, Event.lock_channel c,
           Event.lock_global, Event.unlock_global,
           Event.unlock_channel c])) := by
  refine ⟨?_, ?_, ?_⟩
  · intro p env
    rcases Iccom_lib_Init_events s p env with h | ⟨c, fd, h⟩ | ⟨c, fd, h⟩ |
      ⟨c, fd, q, ret, h⟩ | ⟨c, fd, q, h⟩ <;>
    simp [h, holds_both, channel_locked_under_global, lock_step, both_held,
      no_locks]
  · intro p senv r hr
    rcases Iccom_lib_Send_paths s p senv r hr with ⟨-, -, h | h⟩ |
      ⟨sp, c, -, hch⟩
    · simp [h, holds_both, channel_locked_under_global]
    · simp [h, holds_both, channel_locked_under_global, lock_step, both_held,
        no_locks]
    · rcases Iccom_lib_Send_channel_events s sp c senv _ r hch with
        ⟨-, -, h⟩ | ⟨v1, fd, v2, h⟩ <;>
      simp [h, holds_both, channel_locked_under_global, lock_step, both_held,
        no_locks]
  · intro h fenv r hr
    rcases Iccom_lib_Final_paths s h fenv r hr with ⟨hc, -, he | he⟩ |
      ⟨c, hch⟩
    · simp [he, hc, holds_both, channel_locked_under_global,
        global_locked_under_channel]
    · simp [he, hc, holds_both, channel_locked_under_global,
        global_locked_under_channel, lock_step, both_held, no_locks]
    · rcases Iccom_lib_Final_channel_events s h c fenv _ r hch with
        ⟨hc, -, he⟩ | ⟨hc, -, fd, ret, he⟩ | ⟨hc, fd, ret, tid, he⟩
      · simp [he, hc, holds_both, channel_locked_under_global,
          global_locked_under_channel, lock_step, both_held, no_locks]
      · simp [he, hc, holds_both, channel_locked_under_global,
          global_locked_under_channel, lock_step, both_held, no_locks]
      · simp [he, hc, holds_both, channel_locked_under_global,
          global_locked_under_channel, lock_step, both_held, no_locks,
          is_lock_event]

set_option maxRecDepth 8192 in
theorem C18_lock_nesting_witness :
    ∃ r, Iccom_lib_Send state_ch2_open (some ⟨1000, 3, 500⟩) ⟨3, 0⟩ = some r ∧
      holds_both no_locks r.events = false ∧
      channel_locked_under_global no_locks r.events = false :=
  ⟨_, Option.eq_some_of_isSome (by decide),
   (C18_lock_nesting state_ch2_open).2.1 (some ⟨1000, 3, 500⟩) ⟨3, 0⟩ _
     (Option.eq_some_of_isSome (by decide))⟩

set_option maxRecDepth 8192 in
/-- C18, both mutexes held: the successful `Iccom_lib_Final` of the open channel 2
locks the global mutex while it holds the mutex of channel 2, so it holds both
at the same time. -/
theorem C18_lock_nesting_counterexample :
    (Iccom_lib_Final state_ch2_open 1000 ⟨0⟩).map
        (fun r => (r.retcode, holds_both no_locks r.events,
          global_locked_under_channel no_locks r.events,
          r.events.filter is_lock_event)) =
      some (ICCOM_OK, true, true,
        [Event.lock_global, Event.unlock_global, Event.lock_channel 2,
         Event.lock_global, Event.unlock_global, Event.unlock_channel 2]) := by
  decide

/-- C19: on every control path of `Iccom_lib_Init`, `iccom_lib_check_handle`,
`Iccom_lib_Send` and `Iccom_lib_Final` (and of the parts of Send and Final that
run under the channel lock, for every state observed there), the lock events
of the call keep the lock discipline and leave nothing held: every mutex the
call locks is unlocked before the call returns, no mutex is unlocked that the
call does not hold, none is locked twice, and the channel mutex is destroyed by
Final only when Final no longer holds it, right after its unlock.  Where the
slots point to allocated blocks each of these calls returns. -/
theorem C19_lock_balance (s : LibState) :
    (∀ pIccomInit env, lock_balanced (Iccom_lib_Init s pIccomInit env).events) ∧
    (∀ h r, iccom_lib_check_handle s h = some r → lock_balanced r.events) ∧
    (∀ pIccomSend senv r, Iccom_lib_Send s pIccomSend senv = some r →
      lock_balanced r.events) ∧
    (∀ h fenv r, Iccom_lib_Final s h fenv = some r →
      lock_balanced r.events ∧
      (∀ c, Event.pthread_mutex_destroy c ∈ r.events →
        ∃ pre, r.events =
          pre ++ [Event.unlock_channel c, Event.pthread_mutex_destroy c])) ∧
    (∀ sp c senv r,
      Iccom_lib_Send_channel s sp c senv
        [Event.lock_global, Event.unlock_global] = some r →
      lock_balanced r.events) ∧
    (∀ h c fenv r,
      Iccom_lib_Final_channel s h c fenv
        [Event.lock_global, Event.unlock_global] = some r →
      lock_balanced r.events) ∧
    (registry_wf s →
      (∀ h, ∃ r, iccom_lib_check_handle s h = some r) ∧
      (∀ pIccomSend senv, ∃ r, Iccom_lib_Send s pIccomSend senv = some r) ∧
      (∀ h fenv, ∃ r, Iccom_lib_Final s h fenv = some r)) := by
  have hsend : ∀ sp c senv r,
      Iccom_lib_Send_channel s sp c senv
        [Event.lock_global, Event.unlock_global] = some r →
      lock_balanced r.events := by
    intro sp c senv r hch
    rcases Iccom_lib_Send_channel_events s sp c senv _ r hch with
      ⟨-, -, h⟩ | ⟨v1, fd, v2, h⟩ <;>
    simp [h, lock_balanced, lock_run, lock_step, no_locks]
  have hfinal : ∀ h c fenv r,
      Iccom_lib_Final_channel s h c fenv
        [Event.lock_global, Event.unlock_global] = some r →
      lock_balanced r.events ∧
      (∀ c', Event.pthread_mutex_destroy c' ∈ r.events →
        ∃ pre, r.events =
          pre ++ [Event.unlock_channel c', Event.pthread_mutex_destroy c']) := by
    intro h c fenv r hch
    rcases Iccom_lib_Final_channel_events s h c fenv _ r hch with
      ⟨-, -, he⟩ | ⟨-, -, fd, ret, he⟩ | ⟨-, fd, ret, tid, he⟩
    · simp [he, lock_balanced, lock_run, lock_step, no_locks]
    · simp [he, lock_balanced, lock_run, lock_step, no_locks]
    · refine ⟨by simp [he, lock_balanced, lock_run, lock_step, no_locks], ?_⟩
      intro c' hc'
      have hcc : c' = c := by simpa [he] using hc'
      subst hcc
      exact ⟨[Event.lock_global, Event.unlock_global, Event.lock_channel c',
        Event.ioctl fd ICCOM_IOC_CANCEL_RECEIVE ret, Event.pthread_join tid,
        Event.close fd, Event.lock_global, Event.free h,
        Event.unlock_global], by simp [he]⟩
  refine ⟨?_, ?_, ?_, ?_, hsend, fun h c fenv r hr => (hfinal h c fenv r hr).1,
    ?_⟩
  · intro p env
    rcases Iccom_lib_Init_events s p env with h | ⟨c, fd, h⟩ | ⟨c, fd, h⟩ |
      ⟨c, fd, q, ret, h⟩ | ⟨c, fd, q, h⟩ <;>
    simp [h, lock_balanced, lock_run, lock_step, no_locks]
  · intro h r hr
    rcases check_handle_events s h r hr with he | he <;>
    simp [he, lock_balanced, lock_run, lock_step, no_locks]
  · intro p senv r hr
    rcases Iccom_lib_Send_paths s p senv r hr with ⟨-, -, h | h⟩ |
      ⟨sp, c, -, hch⟩
    · simp [h, lock_balanced, lock_run, no_locks]
    · simp [h, lock_balanced, lock_run, lock_step, no_locks]
    · exact hsend sp c senv r hch
  · intro h fenv r hr
    rcases Iccom_lib_Final_paths s h fenv r hr with ⟨-, -, he | he⟩ |
      ⟨c, hch⟩
    · simp [he, lock_balanced, lock_run, no_locks]
    · simp [he, lock_balanced, lock_run, lock_step, no_locks]
    · exact hfinal h c fenv r hch
  · intro hwf
    exact ⟨fun h => check_handle_defined s h hwf,
      fun p senv => Iccom_lib_Send_defined s p senv hwf,
      fun h fenv => Iccom_lib_Final_defined s h fenv hwf⟩

set_option maxRecDepth 8192 in
theorem C19_lock_balance_witness :
    ∃ r, Iccom_lib_Final state_ch2_open 1000 ⟨0⟩ = some r ∧
      lock_balanced r.events ∧
      (∀ c, Event.pthread_mutex_destroy c ∈ r.events →
        ∃ pre, r.events =
          pre ++ [Event.unlock_channel c, Event.pthread_mutex_destroy c]) :=
  ⟨_, Option.eq_some_of_isSome (by decide),
   (C19_lock_balance state_ch2_open).2.2.2.1 1000 ⟨0⟩ _
     (Option.eq_some_of_isSome (by decide))⟩

/-- The return code of `Iccom_lib_Init` does not depend on the state of the
library. -/
theorem Iccom_lib_Init_retcode_state (s s' : LibState)
    (pIccomInit : Option Iccom_init_param) (env : InitEnv) :
    (Iccom_lib_Init s pIccomInit env).retcode
      = (Iccom_lib_Init s' pIccomInit env).retcode := by
  cases pIccomInit with
  | none => simp [Iccom_lib_Init, Iccom_lib_Init_abnormal]
  | some ip =>
    unfold Iccom_lib_Init
    simp only []
    split_ifs with h1 h2 h3 h4 h5
    · simp [Iccom_lib_Init_abnormal]
    · simp [Iccom_lib_Init_abnormal]
    · simp [Iccom_lib_Init_abnormal]
    · simp [Iccom_lib_Init_abnormal]
    · simp [Iccom_lib_Init_abnormal, h4]
    · rfl

/-- C20: `Iccom_lib_Init` does not check that the slot is empty.  For every
channel c below 8 whose slot already holds a block `old` (in a state where
every non-empty slot i points to an allocated block recording channel i), if
the transport open and the receive-task start succeed, Init returns ICCOM_OK,
slot c then holds the new block, which differs from `old`; its calls are open,
malloc, mutex initialisation, thread creation, global lock and unlock, so no
close, ioctl or join was made for `old`, whose block is left allocated and
untouched; and Send and Final on `old` return ICCOM_ERR_PARAM.  The return
code of Init is the same whatever the registry holds, so a second Init on an
open channel is refused only through the answers of the environment. -/
theorem C20_init_overwrites_slot (s : LibState) (c : Nat)
    (recv_buf recv_cb old send_buf : Ptr) (n : Nat) (env : InitEnv)
    (senv : SendEnv) (fenv : FinalEnv)
    (hc : c < ICCOM_CHANNEL_MAX) (hbuf : recv_buf ≠ NULL)
    (hcb : recv_cb ≠ NULL)
    (hold : s.g_lib_channel_global c = old) (hold0 : old ≠ NULL)
    (hinv : registry_inv s) (hm : malloc_contract s env.malloc_ret)
    (hopen : 0 ≤ env.open_ret)
    (hstart : recv_thread_started
      (Iccom_lib_Init s (some ⟨(c : Int), recv_buf, recv_cb⟩) env))
    (hsbuf : send_buf ≠ NULL) (hn : n ≤ ICCOM_BUF_MAX_SIZE) :
    (Iccom_lib_Init s (some ⟨(c : Int), recv_buf, recv_cb⟩) env).retcode
      = ICCOM_OK ∧
    (Iccom_lib_Init s (some ⟨(c : Int), recv_buf, recv_cb⟩) env).pChannelHandle
      = some env.malloc_ret ∧
    (Iccom_lib_Init s (some ⟨(c : Int), recv_buf, recv_cb⟩)
      env).state.g_lib_channel_global c = env.malloc_ret ∧
    env.malloc_ret ≠ old ∧
    (Iccom_lib_Init s (some ⟨(c : Int), recv_buf, recv_cb⟩) env).events =
      [Event.open_dev c env.open_ret, Event.malloc env.malloc_ret,
       Event.pthread_mutex_init c, Event.pthread_create env.malloc_ret 0,
       Event.lock_global, Event.unlock_global] ∧
    (Iccom_lib_Init s (some ⟨(c : Int), recv_buf, recv_cb⟩) env).state.heap old
      = s.heap old ∧
    s.heap old ≠ none ∧
    Iccom_lib_Send
        (Iccom_lib_Init s (some ⟨(c : Int), recv_buf, recv_cb⟩) env).state
        (some ⟨old, n, send_buf⟩) senv =
      some { retcode := ICCOM_ERR_PARAM
             state :=
               (Iccom_lib_Init s (some ⟨(c : Int), recv_buf, recv_cb⟩)
                 env).state
             events := [Event.lock_global, Event.unlock_global] } ∧
    Iccom_lib_Final
        (Iccom_lib_Init s (some ⟨(c : Int), recv_buf, recv_cb⟩) env).state
        old fenv =
      some { retcode := ICCOM_ERR_PARAM
             state :=
               (Iccom_lib_Init s (some ⟨(c : Int), recv_buf, recv_cb⟩)
                 env).state
             events := [Event.lock_global, Event.unlock_global] } ∧
    (∀ s', (Iccom_lib_Init s' (some ⟨(c : Int), recv_buf, recv_cb⟩)
        env).retcode = ICCOM_OK) := by
  obtain ⟨ip, hip, -, -, -, -, hmalloc, hcreate⟩ :=
    recv_thread_started_cond s _ env hstart
  have hc8 : c < 8 := hc
  have hcu : to_uint32 (c : Int) = c := to_uint32_natCast c (by omega)
  have hinit := Iccom_lib_Init_success s ⟨(c : Int), recv_buf, recv_cb⟩ env
    hbuf hcb (by rw [hcu]; exact hc) hopen hmalloc hcreate
  simp only [hcu] at hinit
  have hfreshp : s.heap env.malloc_ret = none := by
    rcases hm with hm | hm
    · exact absurd hm hmalloc
    · exact hm
  obtain ⟨oinfo, hoheap, -⟩ := hinv c hc (by rw [hold]; exact hold0)
  rw [hold] at hoheap
  have hne : env.malloc_ret ≠ old := by
    intro h
    rw [h, hoheap] at hfreshp
    cases hfreshp
  have hne' : old ≠ env.malloc_ret := fun h => hne h.symm
  have hno : ∀ i, i < ICCOM_CHANNEL_MAX →
      (Iccom_lib_Init s (some ⟨(c : Int), recv_buf, recv_cb⟩)
        env).state.g_lib_channel_global i ≠ old := by
    intro i hi
    rw [hinit]
    by_cases hic : i = c
    · subst hic
      simpa using hne
    · show Function.update s.g_lib_channel_global c env.malloc_ret i ≠ old
      rw [Function.update_noteq hic]
      intro hio
      exact hic (registry_inv_unique s hinv i c hi hc (by rw [hio]; exact hold0)
        (by rw [hio, hold]))
  have hrej := unresolved_handle_rejected
    (Iccom_lib_Init s (some ⟨(c : Int), recv_buf, recv_cb⟩) env).state old
    send_buf n senv fenv (Or.inr hno) hsbuf hn
  have hold0' : ¬ (old = 0) := hold0
  simp only [hold0', if_false] at hrej
  refine ⟨by rw [hinit], by rw [hinit], by rw [hinit]; simp, hne,
    by rw [hinit], ?_, by rw [hoheap]; exact Option.some_ne_none _, hrej.1,
    hrej.2, ?_⟩
  · rw [hinit]
    show Function.update s.heap env.malloc_ret _ old = s.heap old
    rw [Function.update_noteq hne']
  · intro s'
    rw [Iccom_lib_Init_retcode_state s' s, hinit]

set_option maxRecDepth 8192 in
theorem C20_init_overwrites_slot_witness :
    (Iccom_lib_Init state_ch2_open (some ⟨((2 : Nat) : Int), 100, 200⟩)
      env_init_again).retcode = ICCOM_OK ∧
    (Iccom_lib_Init state_ch2_open (some ⟨((2 : Nat) : Int), 100, 200⟩)
      env_init_again).state.g_lib_channel_global 2 = 2000 ∧
    Iccom_lib_Send
        (Iccom_lib_Init state_ch2_open (some ⟨((2 : Nat) : Int), 100, 200⟩)
          env_init_again).state
        (some ⟨1000, 3, 500⟩) ⟨3, 0⟩ =
      some { retcode := ICCOM_ERR_PARAM
             state :=
               (Iccom_lib_Init state_ch2_open
                 (some ⟨((2 : Nat) : Int), 100, 200⟩) env_init_again).state
             events := [Event.lock_global, Event.unlock_global] } := by
  have h := C20_init_overwrites_slot state_ch2_open 2 100 200 1000 500 3
    env_init_again ⟨3, 0⟩ ⟨0⟩ (by decide) (by decide) (by decide) (by decide)
    (by decide)
    (registry_inv_reachable state_ch2_open
      (Reachable.init initial_state (some param_ch2) env_init_ok
        Reachable.start (Or.inr rfl)))
    (Or.inr (by decide)) (by decide) ⟨2000, by decide⟩ (by decide) (by decide)
  exact ⟨h.1, h.2.2.1, h.2.2.2.2.2.2.2.1⟩

end Iccom
